import Mathlib

/-!
Shallow embedding of `src/cartridgeGenerator.js` (thinCCJSON): the manifest /
resource-tree compiler for IMS Common Cartridge packages, together with proofs
of the structural properties stated in the specification.

Modelling conventions: JavaScript strings are `String`, the JS numbers used
here are `Nat`, absent object fields are `Option`, and JS truthiness is
modelled explicitly (`0`, `""`, `undefined` are falsy).  The module-global
`idCounter` is passed through every function explicitly.  File-system writes
and zip packaging (`createCartridgePackage`, the `fs` calls inside
`generateResourcesXml`) are external I/O and out of scope: only the XML text
produced and the resource records are modelled.
-/

namespace CC

/-- JS truthiness of an optional string field (`undefined` and `""` are falsy). -/
def truthyStr : Option String → Bool
  | none => false
  | some s => s != ""

/-- JS truthiness of an optional numeric field (`undefined` and `0` are falsy). -/
def truthyNum : Option Nat → Bool
  | none => false
  | some n => n != 0

/-- JS truthiness of an optional boolean field. -/
def truthyBool : Option Bool → Bool
  | none => false
  | some b => b

/-- JS `a || b` for two strings. -/
def jsOr (a b : String) : String := if a = "" then b else a

/-- JS `a || b` where `a` is an optional string field. -/
def jsOrOpt (a : Option String) (b : String) : String :=
  if truthyStr a then a.getD "" else b

/-- JS `a || b` where `a` is an optional numeric field. -/
def jsOrNum (a : Option Nat) (b : Nat) : Nat :=
  if truthyNum a then a.getD 0 else b

/-- JS `String.prototype.replace` with a *string* pattern replaces only the
first occurrence of `pat`; this is that operation on character lists. -/
def replaceFirstList (pat rep : List Char) : List Char → List Char
  | [] => if pat.isPrefixOf ([] : List Char) then rep ++ List.drop pat.length [] else []
  | c :: cs =>
    if pat.isPrefixOf (c :: cs) then rep ++ List.drop pat.length (c :: cs)
    else c :: replaceFirstList pat rep cs

/-- JS `s.replace(pat, rep)` for a string pattern (first occurrence only). -/
def jsReplace (s pat rep : String) : String :=
  ⟨replaceFirstList pat.data rep.data s.data⟩

/-- JS `s.replace(/\/[^\/]*$/, rep)`: drop everything from the last `/`
(inclusive) to the end and append `rep`; no-op when `s` contains no `/`. -/
def jsReplaceLastSegment (s rep : String) : String :=
  match (s.data.reverse.findIdx? (· == '/')) with
  | none => s
  | some i => ⟨s.data.take (s.data.length - i - 1) ++ rep.data⟩

/-- JS `String.prototype.toLowerCase`, character-wise (only ASCII reaches it here). -/
def jsToLowerCase (s : String) : String := ⟨s.data.map Char.toLower⟩

/-- The `assessmentMetadata` object attached to a leaf node. -/
structure AMeta where
  type : Option String := none
  points : Option Nat := none
  timeLimit : Option Nat := none
  attempts : Option Nat := none
  proctored : Option Bool := none
  passingScore : Option Nat := none
deriving Repr, DecidableEq

/-- A node of the course tree: a container (`children` present) or a leaf
(`launchUrl` present), a leaf possibly carrying an assessment half. -/
inductive Node : Type where
  | mk (title : String) (launchUrl : Option String) (children : Option (List Node))
      (assessmentUrl : Option String) (assessmentTitle : Option String)
      (assessmentMetadata : Option AMeta) : Node

/-- The `title` field of a node. -/
def Node.title : Node → String
  | .mk t _ _ _ _ _ => t

/-- The root course object (`courseData`). -/
structure CourseData where
  title : String
  description : Option String := none
  category : Option String := none
  modules : List Node

/-- An entry of the `resources` array accumulated during the tree walk. -/
structure ResourceRecord where
  id : String
  folderName : String
  launchUrl : String
  title : String
  isAssessment : Bool
  metadata : Option AMeta := none
deriving Repr, DecidableEq

/-- `generateId(prefix, suffix)` (lines 14–18), with the module counter passed
in and returned explicitly instead of mutating the global `idCounter`. -/
def generateId (idCounter : Nat) (pre : String := "I_") (suf : String := "") :
    String × Nat :=
  (pre ++ Nat.repr idCounter ++ suf, idCounter + 1)

/-- Result of `generateItems`: `xml`, `resources` and `counter` mirror the
source's `itemsXml` string, `resources` array and `idCounter`; additionally
`ids` records the `identifier` attribute of every emitted `<item>`, `refs`
the `identifierref` attribute of every emitted `<item>` that has one, and
`tokens` the counter value consumed by each `generateId()` call, all in
emission order. -/
structure ItemsOut where
  xml : String
  resources : List ResourceRecord
  ids : List String
  refs : List String
  tokens : List Nat
  counter : Nat
deriving Repr, DecidableEq

/-- The empty accumulator state of `generateItems` at counter value `c`. -/
def emptyOut (c : Nat) : ItemsOut :=
  { xml := "", resources := [], ids := [], refs := [], tokens := [], counter := c }

mutual

/-- The body of the `items.forEach` callback of `generateItems` (lines 93–156):
the output contributed by a single node.  A node with a truthy `launchUrl` is a
leaf (its `children` are never visited); it emits one content `<item>` plus,
when `assessmentUrl` is truthy, an assessment `<item>` immediately after it.
Any other node is a container: `item.children ? generateItems(item.children) : ''`. -/
def generateItemsStep : Node → Nat → ItemsOut
  | Node.mk title launchUrl children assessmentUrl assessmentTitle assessmentMetadata,
    c =>
    if truthyStr launchUrl then
      let (itemId, c1) := generateId c
      let contentResourceId := itemId ++ "_R"
      let idNumber := jsReplace itemId "I_" ""
      let contentFolderName := jsToLowerCase ("i_" ++ idNumber)
      let contentRes : ResourceRecord :=
        { id := contentResourceId, folderName := contentFolderName,
          launchUrl := launchUrl.getD "", title := title, isAssessment := false }
      let contentXml :=
        "\n        <item identifier=\"" ++ itemId ++ "\" identifierref=\"" ++
          contentResourceId ++ "\">\n          <title>" ++ title ++
          "</title>\n        </item>"
      if truthyStr assessmentUrl then
        let (assessmentItemId, c2) := generateId c1
        let assessmentResourceId := assessmentItemId ++ "_R"
        let assessmentIdNumber := jsReplace assessmentItemId "I_" ""
        let assessmentFolderName := jsToLowerCase ("i_" ++ assessmentIdNumber)
        let assessmentTitleV :=
          if truthyStr assessmentTitle then assessmentTitle.getD ""
          else title ++ " " ++
            (if assessmentMetadata.bind AMeta.type == some "exam" then "Exam" else "Quiz")
        let assessmentRes : ResourceRecord :=
          { id := assessmentResourceId, folderName := assessmentFolderName,
            launchUrl := assessmentUrl.getD "", title := assessmentTitleV,
            isAssessment := true, metadata := some (assessmentMetadata.getD {}) }
        let assessmentXml :=
          "\n        <item identifier=\"" ++ assessmentItemId ++ "\" identifierref=\"" ++
            assessmentResourceId ++ "\">\n          <title>" ++ assessmentTitleV ++
            "</title>\n        </item>"
        { xml := contentXml ++ assessmentXml,
          resources := [contentRes, assessmentRes],
          ids := [itemId, assessmentItemId],
          refs := [contentResourceId, assessmentResourceId],
          tokens := [c, c1],
          counter := c2 }
      else
        { xml := contentXml,
          resources := [contentRes],
          ids := [itemId],
          refs := [contentResourceId],
          tokens := [c],
          counter := c1 }
    else
      let (itemId, c1) := generateId c
      let childOut :=
        match children with
        | some cs => generateItems cs c1
        | none => emptyOut c1
      let itemXml :=
        "\n        <item identifier=\"" ++ itemId ++ "\">\n          <title>" ++ title ++
          "</title>" ++ childOut.xml ++ "\n        </item>"
      { xml := itemXml,
        resources := childOut.resources,
        ids := itemId :: childOut.ids,
        refs := childOut.refs,
        tokens := c :: childOut.tokens,
        counter := childOut.counter }

/-- `generateItems` (lines 90–159): the `forEach` loop accumulating the
per-node outputs in input order, threading the counter left to right. -/
def generateItems : List Node → Nat → ItemsOut
  | [], c => emptyOut c
  | item :: rest, c =>
    let one := generateItemsStep item c
    let out := generateItems rest one.counter
    { xml := one.xml ++ out.xml,
      resources := one.resources ++ out.resources,
      ids := one.ids ++ out.ids,
      refs := one.refs ++ out.refs,
      tokens := one.tokens ++ out.tokens,
      counter := out.counter }

end

/-- Lines 228 and 254: `launchUrl.replace('http://', 'https://')`. -/
def secureLaunchUrl (launchUrl : String) : String :=
  jsReplace launchUrl "http://" "https://"

/-- `generateBasicLtiXml` (lines 214–236). -/
def generateBasicLtiXml (launchUrl title : String) : String :=
  "<?xml version=\"1.0\" encoding=\"UTF-8\"?>\n<cartridge_basiclti_link xmlns=\"http://www.imsglobal.org/xsd/imslticc_v1p0\"\n    xmlns:blti=\"http://www.imsglobal.org/xsd/imsbasiclti_v1p0\"\n    xmlns:lticm=\"http://www.imsglobal.org/xsd/imslticm_v1p0\"\n    xmlns:lticp=\"http://www.imsglobal.org/xsd/imslticp_v1p0\"\n    xmlns:xsi=\"http://www.w3.org/2001/XMLSchema-instance\"\n    xsi:schemaLocation=\"http://www.imsglobal.org/xsd/imslticc_v1p0 http://www.imsglobal.org/xsd/lti/ltiv1p0/imslticc_v1p0.xsd\n    http://www.imsglobal.org/xsd/imsbasiclti_v1p0 http://www.imsglobal.org/xsd/lti/ltiv1p0/imsbasiclti_v1p0.xsd\n    http://www.imsglobal.org/xsd/imslticm_v1p0 http://www.imsglobal.org/xsd/lti/ltiv1p0/imslticm_v1p0.xsd\n    http://www.imsglobal.org/xsd/imslticp_v1p0 http://www.imsglobal.org/xsd/lti/ltiv1p0/imslticp_v1p0.xsd\">\n    <blti:title>" ++
    jsOr title "External Tool" ++
    "</blti:title>\n    <blti:description>Basic LTI Launch</blti:description>\n    <blti:launch_url>" ++
    launchUrl ++
    "</blti:launch_url>\n    <blti:secure_launch_url>" ++
    secureLaunchUrl launchUrl ++
    "</blti:secure_launch_url>\n    <blti:vendor>\n        <lticp:code>external_tool</lticp:code>\n        <lticp:name>External Tool Provider</lticp:name>\n    </blti:vendor>\n    <cartridge_bundle identifierref=\"BLTI001_Bundle\"/>\n    <cartridge_icon identifierref=\"BLTI001_Icon\"/>\n</cartridge_basiclti_link>"

/-- `generateLtiAdvantageXml` (lines 239–299): the base document through the
`assignment_points_possible` property, then the conditional metadata
properties, then the fixed settings / bundle tail. -/
def generateLtiAdvantageXml (launchUrl title : String) (metadata : AMeta) : String :=
  let xml :=
    "<?xml version=\"1.0\" encoding=\"UTF-8\"?>\n<cartridge_basiclti_link xmlns=\"http://www.imsglobal.org/xsd/imslticc_v1p0\"\n    xmlns:blti=\"http://www.imsglobal.org/xsd/imsbasiclti_v1p0\"\n    xmlns:lticm=\"http://www.imsglobal.org/xsd/imslticm_v1p0\"\n    xmlns:lticp=\"http://www.imsglobal.org/xsd/imslticp_v1p0\"\n    xmlns:xsi=\"http://www.w3.org/2001/XMLSchema-instance\"\n    xsi:schemaLocation=\"http://www.imsglobal.org/xsd/imslticc_v1p0 http://www.imsglobal.org/xsd/lti/ltiv1p0/imslticc_v1p0.xsd\n    http://www.imsglobal.org/xsd/imsbasiclti_v1p0 http://www.imsglobal.org/xsd/lti/ltiv1p0/imsbasiclti_v1p0.xsd\n    http://www.imsglobal.org/xsd/imslticm_v1p0 http://www.imsglobal.org/xsd/lti/ltiv1p0/imslticm_v1p0.xsd\n    http://www.imsglobal.org/xsd/imslticp_v1p0 http://www.imsglobal.org/xsd/lti/ltiv1p0/imslticp_v1p0.xsd\">\n    <blti:title>" ++
    jsOr title "Assessment" ++
    "</blti:title>\n    <blti:description>Assessment Launch via LTI Advantage</blti:description>\n    <blti:launch_url>" ++
    launchUrl ++
    "</blti:launch_url>\n    <blti:secure_launch_url>" ++
    secureLaunchUrl launchUrl ++
    "</blti:secure_launch_url>\n    <blti:vendor>\n        <lticp:code>external_tool</lticp:code>\n        <lticp:name>External Tool Provider</lticp:name>\n    </blti:vendor>\n    <blti:extensions platform=\"canvas.instructure.com\">\n        <lticm:property name=\"tool_id\">lti_advantage_tool</lticm:property>\n        <lticm:property name=\"privacy_level\">public</lticm:property>\n        <lticm:property name=\"lti_1_3_enabled\">true</lticm:property>\n        <lticm:property name=\"public_jwk_url\">" ++
    jsReplaceLastSegment launchUrl "/jwks" ++
    "</lticm:property>\n        <lticm:property name=\"assignment_enabled\">true</lticm:property>\n        <lticm:property name=\"assignment_points_possible\">" ++
    Nat.repr (jsOrNum metadata.points 10) ++ "</lticm:property>"
  let xml :=
    if truthyNum metadata.timeLimit then
      xml ++ "\n        <lticm:property name=\"time_limit\">" ++
        Nat.repr (metadata.timeLimit.getD 0) ++ "</lticm:property>"
    else xml
  let xml :=
    if truthyNum metadata.attempts then
      xml ++ "\n        <lticm:property name=\"allowed_attempts\">" ++
        Nat.repr (metadata.attempts.getD 0) ++ "</lticm:property>"
    else xml
  let xml :=
    if truthyBool metadata.proctored then
      xml ++ "\n        <lticm:property name=\"proctoring_enabled\">true</lticm:property>"
    else xml
  let xml :=
    if truthyNum metadata.passingScore then
      xml ++ "\n        <lticm:property name=\"passing_score\">" ++
        Nat.repr (metadata.passingScore.getD 0) ++ "</lticm:property>"
    else xml
  xml ++
    "\n        <lticm:property name=\"settings\">\n            <lticm:property name=\"oidc_initiation_url\">" ++
    jsReplaceLastSegment launchUrl "/init" ++
    "</lticm:property>\n        </lticm:property>\n    </blti:extensions>\n    <cartridge_bundle identifierref=\"BLTI001_Bundle\"/>\n    <cartridge_icon identifierref=\"BLTI001_Icon\"/>\n</cartridge_basiclti_link>"

/-- One `<resource>` entry of the resources section (lines 165–207,
restricted to the returned XML; the descriptor-file writes are the Sink's). -/
def resourceEntryXml (resource : ResourceRecord) : String :=
  if !resource.isAssessment then
    "\n          <resource identifier=\"" ++ resource.id ++
      "\" type=\"imsbasiclti_xmlv1p0\">\n              <file href=\"" ++
      resource.folderName ++ "/basiclti.xml\"/>\n          </resource>"
  else
    "\n          <resource identifier=\"" ++ resource.id ++
      "\" type=\"imsbasiclti_xmlv1p0\">\n              <file href=\"" ++
      resource.folderName ++ "/lti_advantage.xml\"/>\n          </resource>"

/-- `generateResourcesXml` (lines 162–211), pure part. -/
def generateResourcesXml (resources : List ResourceRecord) : String :=
  resources.foldl (fun acc r => acc ++ resourceEntryXml r) ""

/-- The descriptor file written for a resource record (lines 181 and 200–204). -/
def resourceDescriptor (resource : ResourceRecord) : String :=
  if !resource.isAssessment then generateBasicLtiXml resource.launchUrl resource.title
  else generateLtiAdvantageXml resource.launchUrl resource.title (resource.metadata.getD {})

/-- Result of one `generateManifest` call: the manifest XML text, the two
top-level identifiers, the tree-walk output, and the value of the module
counter when the call returns. -/
structure ManifestOut where
  xml : String
  manifestId : String
  organizationId : String
  items : ItemsOut
  counter : Nat

/-- `generateManifest` (lines 79–358) restricted to its pure output.
`idCounter` is the module-global counter before the call; line 81 resets it
to 100 before anything is allocated. -/
def generateManifest (idCounter : Nat) (courseData : CourseData) : ManifestOut :=
  let c0 := 100
  let (manifestId, c1) := generateId c0 "M_" ""
  let (organizationId, c2) := generateId c1 "O_" ""
  let items := generateItems courseData.modules c2
  let xml :=
    "<?xml version=\"1.0\" encoding=\"UTF-8\"?>\n<manifest xmlns=\"http://www.imsglobal.org/xsd/imsccv1p1/imscp_v1p1\"\n    xmlns:lomimscc=\"http://ltsc.ieee.org/xsd/imsccv1p1/LOM/manifest\"\n    xmlns:xsi=\"http://www.w3.org/2001/XMLSchema-instance\" identifier=\"" ++
    manifestId ++
    "\" xsi:schemaLocation=\"http://www.imsglobal.org/xsd/imsccv1p1/imscp_v1p1 http://www.imsglobal.org/profile/cc/ccv1p1/ccv1p1_imscp_v1p2_v1p0.xsd http://ltsc.ieee.org/xsd/imsccv1p1/LOM/manifest http://www.imsglobal.org/profile/cc/ccv1p1/LOM/ccv1p1_lommanifest_v1p0.xsd http://ltsc.ieee.org/xsd/imsccv1p1/LOM/resource http://www.imsglobal.org/profile/cc/ccv1p1/LOM/ccv1p1_lomresource_v1p0.xsd\">\n    <metadata>\n        <schema>IMS Common Cartridge</schema>\n        <schemaversion>1.1.0</schemaversion>\n        <lomimscc:lom>\n            <lomimscc:general>\n                <lomimscc:title>\n                    <lomimscc:string language=\"en\">" ++
    courseData.title ++
    "</lomimscc:string>\n                </lomimscc:title>\n                <lomimscc:language>en</lomimscc:language>\n                <lomimscc:description>\n                    <lomimscc:string language=\"en\">" ++
    jsOrOpt courseData.description "" ++
    "</lomimscc:string>\n                </lomimscc:description>\n                <lomimscc:identifier>\n                    <lomimscc:catalog>category</lomimscc:catalog>\n                    <lomimscc:entry>" ++
    jsOrOpt courseData.category "Hybrid Hosting" ++
    "</lomimscc:entry>\n                </lomimscc:identifier>\n            </lomimscc:general>\n        </lomimscc:lom>\n    </metadata>\n    <organizations>\n        <organization identifier=\"" ++
    organizationId ++
    "\" structure=\"rooted-hierarchy\">\n            <item identifier=\"root\">" ++
    items.xml ++
    "\n            </item>\n        </organization>\n    </organizations>\n    <resources>" ++
    generateResourcesXml items.resources ++
    "\n    </resources>\n</manifest>"
  { xml := xml, manifestId := manifestId, organizationId := organizationId,
    items := items, counter := items.counter }

/-! ### Decimal rendering: facts about `Nat.repr`

`generateId` interpolates the counter with `${nextId}`, i.e. `Nat.repr` in the
embedding; identifier distinctness reduces to injectivity of `Nat.repr`. -/

/-- With enough fuel, core's `Nat.toDigitsCore` produces the base-10 digits
(most significant first) pushed onto the accumulator. -/
theorem toDigitsCore_eq_digits :
    ∀ (f n : Nat) (ds : List Char), n ≠ 0 → n ≤ f →
      Nat.toDigitsCore 10 f n ds = ((Nat.digits 10 n).map Nat.digitChar).reverse ++ ds := by
  intro f
  induction f with
  | zero => intro n ds hn hf; omega
  | succ fuel ih =>
    intro n ds hn hf
    rw [Nat.toDigitsCore]
    by_cases h : n / 10 = 0
    · have hlt : n < 10 := by omega
      have hdig : Nat.digits 10 n = [n % 10] := by
        rw [Nat.digits_def' (by norm_num : 1 < 10) (by omega : 0 < n), h, Nat.digits_zero]
      simp [h, hdig]
    · have hn' : n / 10 ≠ 0 := h
      have hlt : n / 10 < n := Nat.div_lt_self (by omega) (by norm_num)
      have hf' : n / 10 ≤ fuel := by omega
      rw [if_neg h, ih (n / 10) _ hn' hf',
        Nat.digits_def' (by norm_num : 1 < 10) (by omega : 0 < n)]
      simp [List.append_assoc]

/-- For `n ≠ 0`, `Nat.repr n` is the decimal digit string of `n`. -/
theorem repr_data_of_ne_zero (n : Nat) (hn : n ≠ 0) :
    (Nat.repr n).data = ((Nat.digits 10 n).map Nat.digitChar).reverse := by
  show ((Nat.toDigits 10 n).asString).data = _
  rw [Nat.toDigits, toDigitsCore_eq_digits (n + 1) n [] hn (by omega)]
  simp [List.asString]

theorem digitChar_isDigit : ∀ d, d < 10 → (Nat.digitChar d).isDigit = true := by decide

theorem digitChar_inj :
    ∀ a, a < 10 → ∀ b, b < 10 → Nat.digitChar a = Nat.digitChar b → a = b := by decide

theorem digitChar_eq_zero : ∀ d, d < 10 → Nat.digitChar d = '0' → d = 0 := by decide

/-- Every character of `Nat.repr n` is a decimal digit. -/
theorem mem_repr_isDigit (n : Nat) : ∀ ch ∈ (Nat.repr n).data, ch.isDigit = true := by
  by_cases hn : n = 0
  · subst hn
    intro ch hch
    have h0 : ch = '0' := by
      have : (Nat.repr 0).data = ['0'] := rfl
      rw [this] at hch
      simpa using hch
    subst h0; decide
  · rw [repr_data_of_ne_zero n hn]
    intro ch hch
    rw [List.mem_reverse, List.mem_map] at hch
    obtain ⟨d, hd, rfl⟩ := hch
    exact digitChar_isDigit d (Nat.digits_lt_base (by norm_num) hd)

theorem map_digitChar_inj :
    ∀ (l1 l2 : List Nat), (∀ d ∈ l1, d < 10) → (∀ d ∈ l2, d < 10) →
      l1.map Nat.digitChar = l2.map Nat.digitChar → l1 = l2 := by
  intro l1
  induction l1 with
  | nil => intro l2 _ _ h; cases l2 <;> simp_all
  | cons d tl ih =>
    intro l2 h1 h2 h
    cases l2 with
    | nil => simp_all
    | cons e tl2 =>
      simp only [List.map_cons, List.cons.injEq] at h
      have hd : d = e :=
        digitChar_inj d (h1 d (by simp)) e (h2 e (by simp)) h.1
      have ht : tl = tl2 :=
        ih tl2 (fun x hx => h1 x (by simp [hx])) (fun x hx => h2 x (by simp [hx])) h.2
      rw [hd, ht]

/-- There is no nonzero `n` whose decimal representation is `"0"`. -/
theorem repr_ne_zero_string (n : Nat) (hn : n ≠ 0) : Nat.repr n ≠ Nat.repr 0 := by
  intro h
  have hd := congrArg String.data h
  rw [repr_data_of_ne_zero n hn] at hd
  have h0 : (Nat.repr 0).data = ['0'] := rfl
  rw [h0] at hd
  have hmap : (Nat.digits 10 n).map Nat.digitChar = ['0'] := by
    have := congrArg List.reverse hd
    simpa using this
  cases hdig : Nat.digits 10 n with
  | nil => rw [hdig] at hmap; simp at hmap
  | cons d tl =>
    rw [hdig] at hmap
    simp only [List.map_cons, List.cons.injEq, List.map_eq_nil_iff] at hmap
    have hd10 : d < 10 :=
      Nat.digits_lt_base (by norm_num) (by rw [hdig]; exact List.mem_cons_self d tl)
    have hdz : d = 0 := digitChar_eq_zero d hd10 hmap.1
    have hof := Nat.ofDigits_digits 10 n
    rw [hdig, hmap.2, hdz] at hof
    simp [Nat.ofDigits] at hof
    exact hn hof.symm

/-- `Nat.repr` is injective: distinct counters yield distinct tokens. -/
theorem repr_injective : Function.Injective Nat.repr := by
  intro a b h
  by_cases ha : a = 0 <;> by_cases hb : b = 0
  · omega
  · subst ha; exact absurd h.symm (repr_ne_zero_string b hb)
  · subst hb; exact absurd h (repr_ne_zero_string a ha)
  · have hd := congrArg String.data h
    rw [repr_data_of_ne_zero a ha, repr_data_of_ne_zero b hb] at hd
    have hmap : (Nat.digits 10 a).map Nat.digitChar = (Nat.digits 10 b).map Nat.digitChar := by
      have := congrArg List.reverse hd
      simpa using this
    have hdig : Nat.digits 10 a = Nat.digits 10 b :=
      map_digitChar_inj _ _ (fun d hdm => Nat.digits_lt_base (by norm_num) hdm)
        (fun d hdm => Nat.digits_lt_base (by norm_num) hdm) hmap
    exact Nat.digits_inj_iff.mp hdig

/-! ### Identifier strings -/

/-- The item identifier allocated at counter value `t`: `generateId()` with the
default prefix `I_` and empty suffix. -/
def itemIdOf (t : Nat) : String := "I_" ++ Nat.repr t

/-- The resource identifier derived from the item allocated at counter `t`
(`` `${itemId}_R` ``). -/
def resourceIdOf (t : Nat) : String := "I_" ++ (Nat.repr t ++ "_R")

/-- The folder name derived from the item allocated at counter `t`: strip the
`I_` prefix, prepend `i_`, lower-case. -/
def folderNameOf (t : Nat) : String := "i_" ++ Nat.repr t

theorem itemIdOf_data (t : Nat) : (itemIdOf t).data = 'I' :: '_' :: (Nat.repr t).data := by
  rw [itemIdOf, String.data_append]; rfl

theorem resourceIdOf_data (t : Nat) :
    (resourceIdOf t).data = 'I' :: '_' :: ((Nat.repr t).data ++ ['_', 'R']) := by
  rw [resourceIdOf, String.data_append, String.data_append]; rfl

theorem folderNameOf_data (t : Nat) :
    (folderNameOf t).data = 'i' :: '_' :: (Nat.repr t).data := by
  rw [folderNameOf, String.data_append]; rfl

theorem itemIdOf_inj : Function.Injective itemIdOf := by
  intro a b h
  have hd := congrArg String.data h
  rw [itemIdOf_data, itemIdOf_data] at hd
  simp only [List.cons.injEq, true_and] at hd
  exact repr_injective (String.ext hd)

theorem resourceIdOf_inj : Function.Injective resourceIdOf := by
  intro a b h
  have hd := congrArg String.data h
  rw [resourceIdOf_data, resourceIdOf_data] at hd
  simp only [List.cons.injEq, true_and] at hd
  exact repr_injective (String.ext (List.append_cancel_right hd))

theorem folderNameOf_inj : Function.Injective folderNameOf := by
  intro a b h
  have hd := congrArg String.data h
  rw [folderNameOf_data, folderNameOf_data] at hd
  simp only [List.cons.injEq, true_and] at hd
  exact repr_injective (String.ext hd)

theorem itemIdOf_ne_resourceIdOf (a b : Nat) : itemIdOf a ≠ resourceIdOf b := by
  intro h
  have hd := congrArg String.data h
  rw [itemIdOf_data, resourceIdOf_data] at hd
  simp only [List.cons.injEq, true_and] at hd
  have hmem : '_' ∈ (Nat.repr a).data := by rw [hd]; simp
  have := mem_repr_isDigit a '_' hmem
  simp at this

theorem itemIdOf_ne_M100 (t : Nat) : itemIdOf t ≠ "M_100" := by
  intro h
  have hd := congrArg String.data h
  rw [itemIdOf_data] at hd
  have hM : ("M_100" : String).data = ['M', '_', '1', '0', '0'] := rfl
  rw [hM] at hd
  simp at hd

theorem itemIdOf_ne_O101 (t : Nat) : itemIdOf t ≠ "O_101" := by
  intro h
  have hd := congrArg String.data h
  rw [itemIdOf_data] at hd
  have hO : ("O_101" : String).data = ['O', '_', '1', '0', '1'] := rfl
  rw [hO] at hd
  simp at hd

theorem resourceIdOf_ne_M100 (t : Nat) : resourceIdOf t ≠ "M_100" := by
  intro h
  have hd := congrArg String.data h
  rw [resourceIdOf_data] at hd
  have hM : ("M_100" : String).data = ['M', '_', '1', '0', '0'] := rfl
  rw [hM] at hd
  simp at hd

theorem resourceIdOf_ne_O101 (t : Nat) : resourceIdOf t ≠ "O_101" := by
  intro h
  have hd := congrArg String.data h
  rw [resourceIdOf_data] at hd
  have hO : ("O_101" : String).data = ['O', '_', '1', '0', '1'] := rfl
  rw [hO] at hd
  simp at hd

/-- `generateId` with the default arguments allocates the `I_`-prefixed item
identifier for the current counter value. -/
theorem generateId_default (c : Nat) : generateId c = (itemIdOf c, c + 1) := by
  simp [generateId, itemIdOf, String.append_empty]

/-- Replacing a leading copy of `pat` is exact: `replaceFirstList` fires at
position 0. -/
theorem replaceFirstList_prefix (pat rep l : List Char) :
    replaceFirstList pat rep (pat ++ l) = rep ++ l := by
  cases pat with
  | nil =>
    cases l with
    | nil => simp [replaceFirstList]
    | cons c cs => simp [replaceFirstList, List.isPrefixOf]
  | cons p ps =>
    rw [List.cons_append, replaceFirstList, if_pos, ← List.cons_append, List.drop_left]
    exact List.isPrefixOf_iff_prefix.mpr ⟨l, rfl⟩

/-- Line 100: `itemId.replace('I_', '')` recovers the numeric token. -/
theorem jsReplace_stripI (s : String) : jsReplace ("I_" ++ s) "I_" "" = s := by
  apply String.ext
  show replaceFirstList ("I_" : String).data ("" : String).data (("I_" ++ s) : String).data
      = s.data
  rw [String.data_append]
  have h2 : ("I_" : String).data = ['I', '_'] := rfl
  have h0 : ("" : String).data = [] := rfl
  rw [h2, h0, ← h2, replaceFirstList_prefix]
  rfl

theorem toLower_digit (c : Char) (h : c.isDigit = true) : c.toLower = c := by
  simp only [Char.isDigit, Bool.and_eq_true, decide_eq_true_eq] at h
  have h2 : c.val.toNat ≤ 57 := by
    have := h.2
    rw [UInt32.le_def] at this
    simpa using this
  rw [Char.toLower, if_neg]
  rintro ⟨h1, -⟩
  simp [Char.toNat] at h1
  omega

/-- Line 101: lower-casing `` `i_${idNumber}` `` is the identity, as the token
is all digits. -/
theorem jsToLowerCase_folder (t : Nat) :
    jsToLowerCase ("i_" ++ Nat.repr t) = folderNameOf t := by
  apply String.ext
  show (("i_" ++ Nat.repr t) : String).data.map Char.toLower = (folderNameOf t).data
  rw [String.data_append, folderNameOf_data]
  have h2 : ("i_" : String).data = ['i', '_'] := rfl
  rw [h2]
  simp only [List.map_append, List.map_cons, List.map_nil]
  have hi : ('i' : Char).toLower = 'i' := by decide
  have hu : ('_' : Char).toLower = '_' := by decide
  rw [hi, hu]
  have hmap : ∀ l : List Char, (∀ ch ∈ l, ch.isDigit = true) → l.map Char.toLower = l := by
    intro l hl
    induction l with
    | nil => rfl
    | cons x xs ih =>
      rw [List.map_cons, toLower_digit x (hl x (by simp)),
        ih (fun ch hch => hl ch (by simp [hch]))]
  rw [hmap _ (mem_repr_isDigit t)]
  rfl

/-! ### Branch equations for the tree walk -/

/-- The `<item>` fragment emitted for a leaf (content or assessment half)
allocated at counter `t`. -/
def leafItemXml (t : Nat) (title : String) : String :=
  "\n        <item identifier=\"" ++ itemIdOf t ++ "\" identifierref=\"" ++
    resourceIdOf t ++ "\">\n          <title>" ++ title ++ "</title>\n        </item>"

/-- The `<item>` fragment emitted for a container allocated at counter `t`,
wrapping the fragment `inner` of its children. -/
def containerItemXml (t : Nat) (title inner : String) : String :=
  "\n        <item identifier=\"" ++ itemIdOf t ++ "\">\n          <title>" ++ title ++
    "</title>" ++ inner ++ "\n        </item>"

/-- Lines 127–128: the resolved assessment title. -/
def assessmentTitleOf (title : String) (atitle : Option String) (am : Option AMeta) : String :=
  if truthyStr atitle then atitle.getD ""
  else title ++ " " ++ (if am.bind AMeta.type == some "exam" then "Exam" else "Quiz")

/-- The content resource record pushed for a leaf allocated at counter `t`. -/
def contentRecordOf (t : Nat) (url title : String) : ResourceRecord :=
  { id := resourceIdOf t, folderName := folderNameOf t, launchUrl := url,
    title := title, isAssessment := false }

/-- The assessment resource record pushed for an assessment half allocated at
counter `t`. -/
def assessmentRecordOf (t : Nat) (url title : String) (am : Option AMeta) : ResourceRecord :=
  { id := resourceIdOf t, folderName := folderNameOf t, launchUrl := url,
    title := title, isAssessment := true, metadata := some (am.getD {}) }

theorem itemIdOf_append_R (t : Nat) : itemIdOf t ++ "_R" = resourceIdOf t := by
  simp [itemIdOf, resourceIdOf, String.append_assoc]

theorem jsReplace_itemIdOf (t : Nat) : jsReplace (itemIdOf t) "I_" "" = Nat.repr t := by
  rw [itemIdOf, jsReplace_stripI]

theorem truthyStr_some {s : String} (h : s ≠ "") : truthyStr (some s) = true := by
  simp [truthyStr, h]

/-- Branch equation: a leaf with a truthy `assessmentUrl` emits a content item
and an assessment item, in that order, and pushes their two resource records. -/
theorem generateItemsStep_leaf_assessment (title url aurl : String)
    (children : Option (List Node)) (atitle : Option String) (am : Option AMeta)
    (c : Nat) (hu : url ≠ "") (ha : aurl ≠ "") :
    generateItemsStep (Node.mk title (some url) children (some aurl) atitle am) c =
      { xml := leafItemXml c title ++ leafItemXml (c + 1) (assessmentTitleOf title atitle am),
        resources := [contentRecordOf c url title,
          assessmentRecordOf (c + 1) aurl (assessmentTitleOf title atitle am) am],
        ids := [itemIdOf c, itemIdOf (c + 1)],
        refs := [resourceIdOf c, resourceIdOf (c + 1)],
        tokens := [c, c + 1],
        counter := c + 2 } := by
  have hl : truthyStr (some url) = true := truthyStr_some hu
  have ha2 : truthyStr (some aurl) = true := truthyStr_some ha
  rw [generateItemsStep]
  simp only [hl, ha2, if_true, generateId_default, jsReplace_itemIdOf, jsToLowerCase_folder,
    itemIdOf_append_R, Option.getD_some]
  simp [leafItemXml, contentRecordOf, assessmentRecordOf, assessmentTitleOf,
    String.append_assoc]

/-- Branch equation: a leaf without a truthy `assessmentUrl` emits one content
item and pushes one content resource record. -/
theorem generateItemsStep_leaf_noassessment (title url : String)
    (children : Option (List Node)) (aurl : Option String) (atitle : Option String)
    (am : Option AMeta) (c : Nat) (hu : url ≠ "") (hna : truthyStr aurl = false) :
    generateItemsStep (Node.mk title (some url) children aurl atitle am) c =
      { xml := leafItemXml c title,
        resources := [contentRecordOf c url title],
        ids := [itemIdOf c],
        refs := [resourceIdOf c],
        tokens := [c],
        counter := c + 1 } := by
  have hl : truthyStr (some url) = true := truthyStr_some hu
  rw [generateItemsStep]
  simp only [hl, hna, if_true, Bool.false_eq_true, if_false, generateId_default,
    jsReplace_itemIdOf, jsToLowerCase_folder, itemIdOf_append_R, Option.getD_some]
  simp [leafItemXml, contentRecordOf, String.append_assoc]

/-- Branch equation: a node without a truthy `launchUrl` but with a `children`
field is a container wrapping the recursive output of its children. -/
theorem generateItemsStep_container_some (title : String) (lu : Option String)
    (cs : List Node) (aurl atitle : Option String) (am : Option AMeta) (c : Nat)
    (hnl : truthyStr lu = false) :
    generateItemsStep (Node.mk title lu (some cs) aurl atitle am) c =
      { xml := containerItemXml c title (generateItems cs (c + 1)).xml,
        resources := (generateItems cs (c + 1)).resources,
        ids := itemIdOf c :: (generateItems cs (c + 1)).ids,
        refs := (generateItems cs (c + 1)).refs,
        tokens := c :: (generateItems cs (c + 1)).tokens,
        counter := (generateItems cs (c + 1)).counter } := by
  rw [generateItemsStep]
  simp only [hnl, Bool.false_eq_true, if_false, generateId_default]
  simp [containerItemXml, String.append_assoc]

/-- Branch equation: a node with neither a truthy `launchUrl` nor a `children`
field is treated as a container with no children: one well-formed `<item>` with
empty inner content, no resources, and the walk continues. -/
theorem generateItemsStep_container_none (title : String) (lu : Option String)
    (aurl atitle : Option String) (am : Option AMeta) (c : Nat)
    (hnl : truthyStr lu = false) :
    generateItemsStep (Node.mk title lu none aurl atitle am) c =
      { xml := containerItemXml c title "",
        resources := [],
        ids := [itemIdOf c],
        refs := [],
        tokens := [c],
        counter := c + 1 } := by
  rw [generateItemsStep]
  simp only [hnl, Bool.false_eq_true, if_false, generateId_default]
  simp [containerItemXml, emptyOut, String.append_assoc, String.append_empty]

/-- The `forEach` step equation of `generateItems` on a nonempty list. -/
theorem generateItems_cons (item : Node) (rest : List Node) (c : Nat) :
    generateItems (item :: rest) c =
      { xml := (generateItemsStep item c).xml ++
          (generateItems rest (generateItemsStep item c).counter).xml,
        resources := (generateItemsStep item c).resources ++
          (generateItems rest (generateItemsStep item c).counter).resources,
        ids := (generateItemsStep item c).ids ++
          (generateItems rest (generateItemsStep item c).counter).ids,
        refs := (generateItemsStep item c).refs ++
          (generateItems rest (generateItemsStep item c).counter).refs,
        tokens := (generateItemsStep item c).tokens ++
          (generateItems rest (generateItemsStep item c).counter).tokens,
        counter := (generateItems rest (generateItemsStep item c).counter).counter } :=
  rfl

theorem generateItems_nil (c : Nat) : generateItems [] c = emptyOut c := rfl

/-! ### The tree-walk invariant -/

/-- Invariant of one tree-walk segment started at counter value `c`: the
counter never decreases; the consumed tokens are strictly increasing and lie in
`[c, counter)`; the emitted `identifier` attributes are exactly the item ids of
the consumed tokens, in order; the emitted `identifierref` attributes are
exactly the ids of the recorded resources, in order; and the resource ids and
folder names are the derived strings of one common subsequence `ts` of the
consumed tokens. -/
def OutSpec (c : Nat) (o : ItemsOut) : Prop :=
  c ≤ o.counter ∧
  o.tokens.Pairwise (· < ·) ∧
  (∀ t ∈ o.tokens, c ≤ t ∧ t < o.counter) ∧
  o.ids = o.tokens.map itemIdOf ∧
  o.refs = o.resources.map ResourceRecord.id ∧
  ∃ ts : List Nat, List.Sublist ts o.tokens ∧
    o.resources.map ResourceRecord.id = ts.map resourceIdOf ∧
    o.resources.map ResourceRecord.folderName = ts.map folderNameOf

/-- Sequencing two walk segments (the `forEach` accumulation) preserves the
invariant. -/
theorem OutSpec.append {c : Nat} {o1 o2 : ItemsOut}
    (h1 : OutSpec c o1) (h2 : OutSpec o1.counter o2) :
    OutSpec c
      { xml := o1.xml ++ o2.xml, resources := o1.resources ++ o2.resources,
        ids := o1.ids ++ o2.ids, refs := o1.refs ++ o2.refs,
        tokens := o1.tokens ++ o2.tokens, counter := o2.counter } := by
  obtain ⟨hc1, hp1, hb1, hi1, hr1, ts1, hs1, hid1, hfn1⟩ := h1
  obtain ⟨hc2, hp2, hb2, hi2, hr2, ts2, hs2, hid2, hfn2⟩ := h2
  refine ⟨le_trans hc1 hc2, ?_, ?_, ?_, ?_, ts1 ++ ts2, ?_, ?_, ?_⟩
  · rw [List.pairwise_append]
    exact ⟨hp1, hp2, fun a hha b hhb => lt_of_lt_of_le (hb1 a hha).2 (hb2 b hhb).1⟩
  · intro t ht
    rcases List.mem_append.mp ht with h | h
    · exact ⟨(hb1 t h).1, lt_of_lt_of_le (hb1 t h).2 hc2⟩
    · exact ⟨le_trans hc1 (hb2 t h).1, (hb2 t h).2⟩
  · simp [hi1, hi2]
  · simp [hr1, hr2]
  · exact List.Sublist.append hs1 hs2
  · simp [hid1, hid2]
  · simp [hfn1, hfn2]

/-- Wrapping a walk segment under a container item allocated at counter `c`
preserves the invariant. -/
theorem OutSpec.container {c : Nat} {o : ItemsOut} (X : String)
    (h : OutSpec (c + 1) o) :
    OutSpec c
      { xml := X, resources := o.resources, ids := itemIdOf c :: o.ids,
        refs := o.refs, tokens := c :: o.tokens, counter := o.counter } := by
  obtain ⟨hc, hp, hb, hi, hr, ts, hs, hid, hfn⟩ := h
  refine ⟨?_, ?_, ?_, ?_, hr, ts, hs.cons c, hid, hfn⟩
  · show c ≤ o.counter
    omega
  · show (c :: o.tokens).Pairwise (· < ·)
    rw [List.pairwise_cons]
    exact ⟨fun t ht => by have := (hb t ht).1; omega, hp⟩
  · show ∀ t ∈ c :: o.tokens, c ≤ t ∧ t < o.counter
    intro t ht
    rcases List.mem_cons.mp ht with h | h
    · subst h; exact ⟨le_refl t, by omega⟩
    · have := hb t h; omega
  · show itemIdOf c :: o.ids = (c :: o.tokens).map itemIdOf
    simp [hi]

mutual

theorem generateItemsStep_spec : ∀ (n : Node) (c : Nat), OutSpec c (generateItemsStep n c)
  | Node.mk title lu children aurl atitle am, c => by
    by_cases hl : truthyStr lu = true
    · obtain ⟨url, rfl⟩ : ∃ url, lu = some url := by
        cases lu with
        | none => simp [truthyStr] at hl
        | some u => exact ⟨u, rfl⟩
      have hu : url ≠ "" := by simpa [truthyStr] using hl
      by_cases ha : truthyStr aurl = true
      · obtain ⟨aurl2, rfl⟩ : ∃ a, aurl = some a := by
          cases aurl with
          | none => simp [truthyStr] at ha
          | some a => exact ⟨a, rfl⟩
        have ha2 : aurl2 ≠ "" := by simpa [truthyStr] using ha
        rw [generateItemsStep_leaf_assessment title url aurl2 children atitle am c hu ha2]
        refine ⟨?_, ?_, ?_, ?_, ?_, [c, c + 1], ?_, ?_, ?_⟩
        · show c ≤ c + 2
          omega
        · show ([c, c + 1] : List Nat).Pairwise (· < ·)
          simp
        · show ∀ t ∈ ([c, c + 1] : List Nat), c ≤ t ∧ t < c + 2
          intro t ht
          rcases List.mem_cons.mp ht with h | h
          · omega
          · have : t = c + 1 := by simpa using h
            omega
        · show [itemIdOf c, itemIdOf (c + 1)] = ([c, c + 1] : List Nat).map itemIdOf
          simp
        · show [resourceIdOf c, resourceIdOf (c + 1)] =
            ([contentRecordOf c url title,
              assessmentRecordOf (c + 1) aurl2 (assessmentTitleOf title atitle am) am]).map
              ResourceRecord.id
          simp [contentRecordOf, assessmentRecordOf]
        · exact List.Sublist.refl _
        · show ([contentRecordOf c url title,
              assessmentRecordOf (c + 1) aurl2 (assessmentTitleOf title atitle am) am]).map
              ResourceRecord.id = ([c, c + 1] : List Nat).map resourceIdOf
          simp [contentRecordOf, assessmentRecordOf]
        · show ([contentRecordOf c url title,
              assessmentRecordOf (c + 1) aurl2 (assessmentTitleOf title atitle am) am]).map
              ResourceRecord.folderName = ([c, c + 1] : List Nat).map folderNameOf
          simp [contentRecordOf, assessmentRecordOf]
      · rw [generateItemsStep_leaf_noassessment title url children aurl atitle am c hu
          (by simpa using ha)]
        refine ⟨?_, ?_, ?_, ?_, ?_, [c], ?_, ?_, ?_⟩
        · show c ≤ c + 1
          omega
        · show ([c] : List Nat).Pairwise (· < ·)
          simp
        · show ∀ t ∈ ([c] : List Nat), c ≤ t ∧ t < c + 1
          intro t ht
          have : t = c := by simpa using ht
          omega
        · show [itemIdOf c] = ([c] : List Nat).map itemIdOf
          simp
        · show [resourceIdOf c] = ([contentRecordOf c url title]).map ResourceRecord.id
          simp [contentRecordOf]
        · exact List.Sublist.refl _
        · show ([contentRecordOf c url title]).map ResourceRecord.id =
            ([c] : List Nat).map resourceIdOf
          simp [contentRecordOf]
        · show ([contentRecordOf c url title]).map ResourceRecord.folderName =
            ([c] : List Nat).map folderNameOf
          simp [contentRecordOf]
    · have hnl : truthyStr lu = false := by simpa using hl
      cases children with
      | some cs =>
        have hchild := generateItems_spec cs (c + 1)
        rw [generateItemsStep_container_some title lu cs aurl atitle am c hnl]
        exact OutSpec.container _ hchild
      | none =>
        rw [generateItemsStep_container_none title lu aurl atitle am c hnl]
        refine ⟨?_, ?_, ?_, ?_, ?_, [], ?_, ?_, ?_⟩
        · show c ≤ c + 1
          omega
        · show ([c] : List Nat).Pairwise (· < ·)
          simp
        · show ∀ t ∈ ([c] : List Nat), c ≤ t ∧ t < c + 1
          intro t ht
          have : t = c := by simpa using ht
          omega
        · show [itemIdOf c] = ([c] : List Nat).map itemIdOf
          simp
        · show ([] : List String) = ([] : List ResourceRecord).map ResourceRecord.id
          simp
        · simp
        · simp
        · simp

theorem generateItems_spec : ∀ (l : List Node) (c : Nat), OutSpec c (generateItems l c)
  | [], c => by
    rw [generateItems_nil]
    exact ⟨le_refl c, by simp [emptyOut], by simp [emptyOut], by simp [emptyOut],
      by simp [emptyOut], [], by simp [emptyOut], by simp [emptyOut], by simp [emptyOut]⟩
  | item :: rest, c => by
    have h1 := generateItemsStep_spec item c
    have h2 := generateItems_spec rest (generateItemsStep item c).counter
    rw [generateItems_cons]
    exact OutSpec.append h1 h2

end

/-! ### Manifest-level corollaries -/

theorem generateManifest_items (σ : Nat) (cd : CourseData) :
    (generateManifest σ cd).items = generateItems cd.modules 102 := rfl

theorem generateManifest_manifestId (σ : Nat) (cd : CourseData) :
    (generateManifest σ cd).manifestId = "M_100" := rfl

theorem generateManifest_organizationId (σ : Nat) (cd : CourseData) :
    (generateManifest σ cd).organizationId = "O_101" := rfl

theorem generateItems_tokens_nodup (l : List Node) (c : Nat) :
    (generateItems l c).tokens.Nodup := by
  obtain ⟨-, hp, -, -, -, -, -, -, -⟩ := generateItems_spec l c
  exact hp.imp (fun h => ne_of_lt h)

theorem generateItems_ids_nodup (l : List Node) (c : Nat) :
    (generateItems l c).ids.Nodup := by
  obtain ⟨-, hp, -, hi, -, -, -, -, -⟩ := generateItems_spec l c
  rw [hi]
  exact List.Nodup.map itemIdOf_inj (hp.imp (fun h => ne_of_lt h))

theorem generateItems_resource_ids_nodup (l : List Node) (c : Nat) :
    ((generateItems l c).resources.map ResourceRecord.id).Nodup := by
  obtain ⟨-, hp, -, -, -, ts, hs, hid, -⟩ := generateItems_spec l c
  rw [hid]
  exact List.Nodup.map resourceIdOf_inj ((List.Pairwise.sublist hs hp).imp (fun h => ne_of_lt h))

theorem generateItems_refs_eq (l : List Node) (c : Nat) :
    (generateItems l c).refs = (generateItems l c).resources.map ResourceRecord.id := by
  obtain ⟨-, -, -, -, hr, -⟩ := generateItems_spec l c
  exact hr

/-! ### Claims -/

/-- C1. For every input course tree, the compiled manifest satisfies reference
closure: every `identifierref` attribute emitted in the organization item tree
equals the identifier of exactly one resource entry in the resources section,
and every resource identifier in the resources section is referenced by
exactly one organization item. -/
theorem C1_reference_closure (σ : Nat) (cd : CourseData) :
    (∀ ref ∈ (generateManifest σ cd).items.refs,
      List.count ref ((generateManifest σ cd).items.resources.map ResourceRecord.id) = 1) ∧
    (∀ r ∈ (generateManifest σ cd).items.resources,
      List.count r.id (generateManifest σ cd).items.refs = 1) := by
  rw [generateManifest_items]
  constructor
  · intro ref href
    rw [generateItems_refs_eq] at href
    exact List.count_eq_one_of_mem (generateItems_resource_ids_nodup cd.modules 102) href
  · intro r hr
    rw [generateItems_refs_eq]
    exact List.count_eq_one_of_mem (generateItems_resource_ids_nodup cd.modules 102)
      (List.mem_map_of_mem ResourceRecord.id hr)

/-- Witness for C1 on a concrete one-leaf course. -/
theorem C1_reference_closure_witness :
    List.count "I_102_R"
      ((generateManifest 0
        { title := "C", modules := [Node.mk "L" (some "https://x") none none none none] }
        ).items.resources.map ResourceRecord.id) = 1 :=
  (C1_reference_closure 0
    { title := "C", modules := [Node.mk "L" (some "https://x") none none none none] }).1
    "I_102_R" (by decide)

/-- C4. For every input course tree, generation is deterministic and
reproducible: whatever the value of the module counter at call time, the reset
to the base value 100 makes two calls on the identical tree produce
byte-identical manifest XML text. -/
theorem C4_deterministic (σ₁ σ₂ : Nat) (cd : CourseData) :
    (generateManifest σ₁ cd).xml = (generateManifest σ₂ cd).xml := rfl

/-- C5. For every input tree, all identifiers allocated within one generation
call — manifest id, organization id, every item id and every derived resource
id — are pairwise distinct. -/
theorem C5_identifier_uniqueness (σ : Nat) (cd : CourseData) :
    ((generateManifest σ cd).manifestId :: (generateManifest σ cd).organizationId ::
      ((generateManifest σ cd).items.ids ++
        (generateManifest σ cd).items.resources.map ResourceRecord.id)).Nodup := by
  rw [generateManifest_items, generateManifest_manifestId, generateManifest_organizationId]
  obtain ⟨-, hp, -, hi, -, ts, hs, hid, -⟩ := generateItems_spec cd.modules 102
  rw [List.nodup_cons, List.nodup_cons]
  refine ⟨?_, ?_, ?_⟩
  · intro hmem
    rcases List.mem_cons.mp hmem with h | h
    · exact absurd h (by decide)
    · rcases List.mem_append.mp h with h2 | h2
      · rw [hi] at h2
        obtain ⟨t, -, ht⟩ := List.mem_map.mp h2
        exact itemIdOf_ne_M100 t ht
      · rw [hid] at h2
        obtain ⟨t, -, ht⟩ := List.mem_map.mp h2
        exact resourceIdOf_ne_M100 t ht
  · intro hmem
    rcases List.mem_append.mp hmem with h2 | h2
    · rw [hi] at h2
      obtain ⟨t, -, ht⟩ := List.mem_map.mp h2
      exact itemIdOf_ne_O101 t ht
    · rw [hid] at h2
      obtain ⟨t, -, ht⟩ := List.mem_map.mp h2
      exact resourceIdOf_ne_O101 t ht
  · rw [List.nodup_append]
    refine ⟨generateItems_ids_nodup cd.modules 102,
      generateItems_resource_ids_nodup cd.modules 102, ?_⟩
    intro x hx hx2
    rw [hi] at hx
    rw [hid] at hx2
    obtain ⟨a, -, ha⟩ := List.mem_map.mp hx
    obtain ⟨b, -, hb⟩ := List.mem_map.mp hx2
    exact itemIdOf_ne_resourceIdOf a b (ha.trans hb.symm)

/-- C9. For every input tree processed under the monotonic allocator, the
folder names of all resource records produced within one generation call are
pairwise distinct. -/
theorem C9_folder_uniqueness (σ : Nat) (cd : CourseData) :
    ((generateManifest σ cd).items.resources.map ResourceRecord.folderName).Nodup := by
  rw [generateManifest_items]
  obtain ⟨-, hp, -, -, -, ts, hs, -, hfn⟩ := generateItems_spec cd.modules 102
  rw [hfn]
  exact List.Nodup.map folderNameOf_inj ((List.Pairwise.sublist hs hp).imp (fun h => ne_of_lt h))

/-- If the pattern occurs nowhere in the subject, JS `replace` is the
identity. -/
theorem replaceFirstList_of_not_infix (pat rep : List Char) :
    ∀ l : List Char, ¬ pat <:+: l → replaceFirstList pat rep l = l := by
  intro l
  induction l with
  | nil =>
    intro h
    rw [replaceFirstList, if_neg]
    intro hpre
    exact h (List.IsPrefix.isInfix (List.isPrefixOf_iff_prefix.mp hpre))
  | cons c cs ih =>
    intro h
    rw [replaceFirstList, if_neg, ih (fun hinf => h (List.infix_cons hinf))]
    intro hpre
    exact h (List.IsPrefix.isInfix (List.isPrefixOf_iff_prefix.mp hpre))

set_option maxRecDepth 8192 in
/-- C2 (counterexample). The claim predicts a `StructuralError` aborting the
compile with no manifest for a node carrying neither `children` nor
`launchUrl`; instead the code completes normally and returns this full
manifest, in which the orphan node appears as an item with empty inner
content. -/
theorem C2_counterexample :
    (generateManifest 0
      { title := "C", modules := [Node.mk "Orphan" none none none none none] }).xml =
    "<?xml version=\"1.0\" encoding=\"UTF-8\"?>\n<manifest xmlns=\"http://www.imsglobal.org/xsd/imsccv1p1/imscp_v1p1\"\n    xmlns:lomimscc=\"http://ltsc.ieee.org/xsd/imsccv1p1/LOM/manifest\"\n    xmlns:xsi=\"http://www.w3.org/2001/XMLSchema-instance\" identifier=\"M_100\" xsi:schemaLocation=\"http://www.imsglobal.org/xsd/imsccv1p1/imscp_v1p1 http://www.imsglobal.org/profile/cc/ccv1p1/ccv1p1_imscp_v1p2_v1p0.xsd http://ltsc.ieee.org/xsd/imsccv1p1/LOM/manifest http://www.imsglobal.org/profile/cc/ccv1p1/LOM/ccv1p1_lommanifest_v1p0.xsd http://ltsc.ieee.org/xsd/imsccv1p1/LOM/resource http://www.imsglobal.org/profile/cc/ccv1p1/LOM/ccv1p1_lomresource_v1p0.xsd\">\n    <metadata>\n        <schema>IMS Common Cartridge</schema>\n        <schemaversion>1.1.0</schemaversion>\n        <lomimscc:lom>\n            <lomimscc:general>\n                <lomimscc:title>\n                    <lomimscc:string language=\"en\">C</lomimscc:string>\n                </lomimscc:title>\n                <lomimscc:language>en</lomimscc:language>\n                <lomimscc:description>\n                    <lomimscc:string language=\"en\"></lomimscc:string>\n                </lomimscc:description>\n                <lomimscc:identifier>\n                    <lomimscc:catalog>category</lomimscc:catalog>\n                    <lomimscc:entry>Hybrid Hosting</lomimscc:entry>\n                </lomimscc:identifier>\n            </lomimscc:general>\n        </lomimscc:lom>\n    </metadata>\n    <organizations>\n        <organization identifier=\"O_101\" structure=\"rooted-hierarchy\">\n            <item identifier=\"root\">\n        <item identifier=\"I_102\">\n          <title>Orphan</title>\n        </item>\n            </item>\n        </organization>\n    </organizations>\n    <resources>\n    </resources>\n</manifest>" :=
  rfl

/-- C2 (amended). A node with neither a `children` field nor a `launchUrl`
field does not raise any error: the compile treats it as a container with no
children, emitting a well-formed `<item>` with the node's title and empty
inner content, adds no resource record, and continues with the remaining
siblings (the code has no `StructuralError` path at all). -/
theorem C2_no_structural_error (title : String) (aurl atitle : Option String)
    (am : Option AMeta) (rest : List Node) (c : Nat) :
    (generateItems (Node.mk title none none aurl atitle am :: rest) c).xml =
      containerItemXml c title "" ++ (generateItems rest (c + 1)).xml ∧
    (generateItems (Node.mk title none none aurl atitle am :: rest) c).resources =
      (generateItems rest (c + 1)).resources := by
  rw [generateItems_cons, generateItemsStep_container_none title none aurl atitle am c rfl]
  exact ⟨rfl, rfl⟩

/-- C3 (counterexample). The claim predicts that a URL that does not start
with `http://` passes through `secure_launch_url` unchanged; but JS `replace`
rewrites the first occurrence anywhere, so a URL merely containing `http://`
is changed. -/
theorem C3_counterexample :
    ¬ (("http://" : String).data <+: ("https://a/?u=http://b" : String).data) ∧
    secureLaunchUrl "https://a/?u=http://b" ≠ "https://a/?u=http://b" := by
  constructor
  · decide
  · decide

/-- C3 (amended). `secure_launch_url` replaces the *first occurrence* of the
literal `http://` anywhere in the URL with `https://`: a leading `http://`
becomes `https://`, and the URL is unchanged exactly when `http://` occurs
nowhere in it (not merely when it is not a prefix). -/
theorem C3_secure_launch_url (rest u : String) :
    secureLaunchUrl ("http://" ++ rest) = "https://" ++ rest ∧
    (¬ ("http://" : String).data <:+: u.data → secureLaunchUrl u = u) := by
  constructor
  · apply String.ext
    show replaceFirstList ("http://" : String).data ("https://" : String).data
      (("http://" ++ rest) : String).data = (("https://" ++ rest) : String).data
    rw [String.data_append, String.data_append, replaceFirstList_prefix]
  · intro h
    apply String.ext
    show replaceFirstList ("http://" : String).data ("https://" : String).data u.data = u.data
    exact replaceFirstList_of_not_infix _ _ _ h

/-- Witness for C3 at concrete URLs. -/
theorem C3_witness :
    secureLaunchUrl ("http://" ++ "x") = "https://" ++ "x" ∧
    secureLaunchUrl "ftp://x" = "ftp://x" :=
  ⟨(C3_secure_launch_url "x" "ftp://x").1, (C3_secure_launch_url "x" "ftp://x").2 (by decide)⟩

/-- C6. Sibling `<item>` elements appear in the emitted organization fragment
in input order (depth-first, pre-order: each node's full fragment precedes the
fragments of its later siblings, with the counter threaded left to right), and
for a leaf carrying an `assessmentUrl` the assessment `<item>` appears
immediately after the content `<item>`, the resource records being appended in
the same traversal order. -/
theorem C6_order_preservation :
    (∀ (item : Node) (rest : List Node) (c : Nat),
      (generateItems (item :: rest) c).xml =
        (generateItemsStep item c).xml ++
          (generateItems rest (generateItemsStep item c).counter).xml ∧
      (generateItems (item :: rest) c).resources =
        (generateItemsStep item c).resources ++
          (generateItems rest (generateItemsStep item c).counter).resources) ∧
    (∀ (title url aurl : String) (children : Option (List Node))
        (atitle : Option String) (am : Option AMeta) (c : Nat),
      url ≠ "" → aurl ≠ "" →
      (generateItemsStep (Node.mk title (some url) children (some aurl) atitle am) c).xml =
        leafItemXml c title ++ leafItemXml (c + 1) (assessmentTitleOf title atitle am) ∧
      (generateItemsStep (Node.mk title (some url) children (some aurl) atitle am)
          c).resources =
        [contentRecordOf c url title,
          assessmentRecordOf (c + 1) aurl (assessmentTitleOf title atitle am) am]) := by
  constructor
  · intro item rest c
    rw [generateItems_cons]
    exact ⟨rfl, rfl⟩
  · intro title url aurl children atitle am c hu ha
    rw [generateItemsStep_leaf_assessment title url aurl children atitle am c hu ha]
    exact ⟨rfl, rfl⟩

/-- Witness for C6 on a concrete leaf with an assessment. -/
theorem C6_witness :
    (generateItemsStep
      (Node.mk "L" (some "https://x") none (some "https://x/q") none none) 102).xml =
      leafItemXml 102 "L" ++ leafItemXml 103 (assessmentTitleOf "L" none none) :=
  (C6_order_preservation.2 "L" "https://x" "https://x/q" none none none 102
    (by decide) (by decide)).1

/-- The LTI Advantage descriptor up to and including the opening of the
`assignment_points_possible` property (everything before the points value). -/
def advantagePointsPrefix (launchUrl title : String) : String :=
  "<?xml version=\"1.0\" encoding=\"UTF-8\"?>\n<cartridge_basiclti_link xmlns=\"http://www.imsglobal.org/xsd/imslticc_v1p0\"\n    xmlns:blti=\"http://www.imsglobal.org/xsd/imsbasiclti_v1p0\"\n    xmlns:lticm=\"http://www.imsglobal.org/xsd/imslticm_v1p0\"\n    xmlns:lticp=\"http://www.imsglobal.org/xsd/imslticp_v1p0\"\n    xmlns:xsi=\"http://www.w3.org/2001/XMLSchema-instance\"\n    xsi:schemaLocation=\"http://www.imsglobal.org/xsd/imslticc_v1p0 http://www.imsglobal.org/xsd/lti/ltiv1p0/imslticc_v1p0.xsd\n    http://www.imsglobal.org/xsd/imsbasiclti_v1p0 http://www.imsglobal.org/xsd/lti/ltiv1p0/imsbasiclti_v1p0.xsd\n    http://www.imsglobal.org/xsd/imslticm_v1p0 http://www.imsglobal.org/xsd/lti/ltiv1p0/imslticm_v1p0.xsd\n    http://www.imsglobal.org/xsd/imslticp_v1p0 http://www.imsglobal.org/xsd/lti/ltiv1p0/imslticp_v1p0.xsd\">\n    <blti:title>" ++
  jsOr title "Assessment" ++
  "</blti:title>\n    <blti:description>Assessment Launch via LTI Advantage</blti:description>\n    <blti:launch_url>" ++
  launchUrl ++
  "</blti:launch_url>\n    <blti:secure_launch_url>" ++
  secureLaunchUrl launchUrl ++
  "</blti:secure_launch_url>\n    <blti:vendor>\n        <lticp:code>external_tool</lticp:code>\n        <lticp:name>External Tool Provider</lticp:name>\n    </blti:vendor>\n    <blti:extensions platform=\"canvas.instructure.com\">\n        <lticm:property name=\"tool_id\">lti_advantage_tool</lticm:property>\n        <lticm:property name=\"privacy_level\">public</lticm:property>\n        <lticm:property name=\"lti_1_3_enabled\">true</lticm:property>\n        <lticm:property name=\"public_jwk_url\">" ++
  jsReplaceLastSegment launchUrl "/jwks" ++
  "</lticm:property>\n        <lticm:property name=\"assignment_enabled\">true</lticm:property>\n        <lticm:property name=\"assignment_points_possible\">"

/-- The conditional `time_limit` extension property. -/
def timeLimitProp (v : Nat) : String :=
  "\n        <lticm:property name=\"time_limit\">" ++ Nat.repr v ++ "</lticm:property>"

/-- The conditional `allowed_attempts` extension property. -/
def attemptsProp (v : Nat) : String :=
  "\n        <lticm:property name=\"allowed_attempts\">" ++ Nat.repr v ++ "</lticm:property>"

/-- The conditional `proctoring_enabled` extension property. -/
def proctoredProp : String :=
  "\n        <lticm:property name=\"proctoring_enabled\">true</lticm:property>"

/-- The conditional `passing_score` extension property. -/
def passingScoreProp (v : Nat) : String :=
  "\n        <lticm:property name=\"passing_score\">" ++ Nat.repr v ++ "</lticm:property>"

/-- The fixed tail of the LTI Advantage descriptor: the settings block holding
the OIDC initiation URL, then the bundle/icon boilerplate. -/
def advantageSettingsTail (launchUrl : String) : String :=
  "\n        <lticm:property name=\"settings\">\n            <lticm:property name=\"oidc_initiation_url\">" ++
  jsReplaceLastSegment launchUrl "/init" ++
  "</lticm:property>\n        </lticm:property>\n    </blti:extensions>\n    <cartridge_bundle identifierref=\"BLTI001_Bundle\"/>\n    <cartridge_icon identifierref=\"BLTI001_Icon\"/>\n</cartridge_basiclti_link>"

/-- Decomposition of the LTI Advantage descriptor into its fixed head, the
points property, the four conditional properties in source order, and the
settings tail. -/
theorem advantage_decomposition (u t : String) (m : AMeta) :
    generateLtiAdvantageXml u t m =
      advantagePointsPrefix u t ++
      Nat.repr (if truthyNum m.points then m.points.getD 0 else 10) ++ "</lticm:property>" ++
      (if truthyNum m.timeLimit then timeLimitProp (m.timeLimit.getD 0) else "") ++
      (if truthyNum m.attempts then attemptsProp (m.attempts.getD 0) else "") ++
      (if truthyBool m.proctored then proctoredProp else "") ++
      (if truthyNum m.passingScore then passingScoreProp (m.passingScore.getD 0) else "") ++
      advantageSettingsTail u := by
  cases h1 : truthyNum m.timeLimit <;> cases h2 : truthyNum m.attempts <;>
    cases h3 : truthyBool m.proctored <;> cases h4 : truthyNum m.passingScore <;>
    simp only [generateLtiAdvantageXml, advantagePointsPrefix, advantageSettingsTail,
      timeLimitProp, attemptsProp, proctoredProp, passingScoreProp, jsOrNum,
      h1, h2, h3, h4, Bool.false_eq_true, eq_self_iff_true, if_true, if_false,
      String.append_assoc, String.append_empty, String.empty_append]

/-- C7 (amended). `renderAdvantage` emits `assignment_points_possible` equal
to `metadata.points` when present *and truthy (non-zero)* and `10` otherwise;
the optional extension properties are appended only when present *and truthy*,
in the fixed order `time_limit`, `allowed_attempts`, `proctoring_enabled`,
`passing_score`; and the settings block carrying the OIDC initiation URL is
always appended last. -/
theorem C7_advantage_extensions (u t : String) (m : AMeta) :
    generateLtiAdvantageXml u t m =
      advantagePointsPrefix u t ++
      Nat.repr (if truthyNum m.points then m.points.getD 0 else 10) ++ "</lticm:property>" ++
      (if truthyNum m.timeLimit then timeLimitProp (m.timeLimit.getD 0) else "") ++
      (if truthyNum m.attempts then attemptsProp (m.attempts.getD 0) else "") ++
      (if truthyBool m.proctored then proctoredProp else "") ++
      (if truthyNum m.passingScore then passingScoreProp (m.passingScore.getD 0) else "") ++
      advantageSettingsTail u :=
  advantage_decomposition u t m

set_option maxRecDepth 8192 in
/-- C7 (counterexample). `metadata.points = 0` is *present* but falsy: the
descriptor rendered for `points = 0` is byte-identical to the one rendered
with `points` absent, whose points property reads `10` — refuting the claim
that a present `points` value is always emitted. -/
theorem C7_counterexample :
    generateLtiAdvantageXml "http://x/a" "T" { points := some 0 } =
      generateLtiAdvantageXml "http://x/a" "T" {} ∧
    generateLtiAdvantageXml "http://x/a" "T" {} =
      advantagePointsPrefix "http://x/a" "T" ++ "10" ++ "</lticm:property>" ++
        advantageSettingsTail "http://x/a" :=
  ⟨rfl, rfl⟩

/-- C8 (counterexample). An explicit `assessmentTitle` that is the *empty
string* is present but falsy: the code falls through to the default and
renders `"L Quiz"`, refuting the claim that a present `assessmentTitle` is
always used. -/
theorem C8_counterexample :
    ((generateItems
      [Node.mk "L" (some "https://x") none (some "https://x/q") (some "") none]
      102).resources.map ResourceRecord.title) = ["L", "L Quiz"] ∧
    ((generateItems
      [Node.mk "L" (some "https://x") none (some "https://x/q") (some "") none]
      102).resources.map ResourceRecord.title) ≠ ["L", ""] :=
  ⟨rfl, by decide⟩

/-- C8 (amended). For every leaf with a truthy `assessmentUrl`, the assessment
item's title equals the explicit `assessmentTitle` when present *and
non-empty*; otherwise it equals `"{title} Exam"` when
`assessmentMetadata.type === "exam"`, and `"{title} Quiz"` in every other case
(including absent metadata). -/
theorem C8_assessment_title (t url aurl : String) (children : Option (List Node))
    (atitle : Option String) (am : Option AMeta) (c : Nat)
    (hu : url ≠ "") (ha : aurl ≠ "") :
    ((generateItemsStep (Node.mk t (some url) children (some aurl) atitle am) c).resources.map
      ResourceRecord.title) =
      [t, match atitle with
          | some s =>
            if s = "" then
              (if am.bind AMeta.type = some "exam" then t ++ " Exam" else t ++ " Quiz")
            else s
          | none =>
            (if am.bind AMeta.type = some "exam" then t ++ " Exam" else t ++ " Quiz")] := by
  rw [generateItemsStep_leaf_assessment t url aurl children atitle am c hu ha]
  simp only [List.map_cons, List.map_nil, contentRecordOf, assessmentRecordOf]
  rcases atitle with - | s
  · simp only [assessmentTitleOf, truthyStr]
    by_cases he : am.bind AMeta.type = some "exam" <;>
      simp [he, String.append_assoc]
  · by_cases hs : s = ""
    · subst hs
      simp only [assessmentTitleOf, truthyStr]
      by_cases he : am.bind AMeta.type = some "exam" <;>
        simp [he, String.append_assoc]
    · simp [assessmentTitleOf, truthyStr, hs]

/-- Witness for C8 on a concrete exam-typed leaf without explicit title. -/
theorem C8_witness :
    ((generateItemsStep (Node.mk "L" (some "https://x") none (some "https://x/q") none
      (some { type := some "exam" })) 102).resources.map ResourceRecord.title) =
      ["L", "L Exam"] :=
  (C8_assessment_title "L" "https://x" "https://x/q" none none
    (some { type := some "exam" }) 102 (by decide) (by decide)).trans (by decide)

theorem jsOrOpt_some_empty (s : String) : jsOrOpt (some s) "" = s := by
  by_cases hs : s = "" <;> simp [jsOrOpt, truthyStr, hs]

theorem jsOrOpt_some_of_ne (s d : String) (hs : s ≠ "") : jsOrOpt (some s) d = s := by
  simp [jsOrOpt, truthyStr, hs]

/-- C10. User-supplied strings are interpolated into the XML verbatim, with no
escaping: the course title, a present description, and a present non-empty
category occur verbatim in the manifest; every node's title occurs verbatim in
its `<item>` fragment; the launch URL and (non-empty) title occur verbatim in
the basic LTI descriptor; and the launch URL, the (non-empty) title, and every
present truthy metadata value (`points`, `timeLimit`, `attempts`,
`passingScore`) occur verbatim in the LTI Advantage descriptor — so any `<`,
`>`, or `&` in those inputs appears unchanged in the output text. -/
theorem C10_no_escaping :
    (∀ (σ : Nat) (cd : CourseData),
      ∃ p q, (generateManifest σ cd).xml = p ++ cd.title ++ q) ∧
    (∀ (n : Node) (c : Nat),
      ∃ p q, (generateItemsStep n c).xml = p ++ n.title ++ q) ∧
    (∀ u t : String, ∃ p q, generateBasicLtiXml u t = p ++ u ++ q) ∧
    (∀ u t : String, t ≠ "" → ∃ p q, generateBasicLtiXml u t = p ++ t ++ q) ∧
    (∀ (σ : Nat) (cd : CourseData) (s : String), cd.description = some s →
      ∃ p q, (generateManifest σ cd).xml = p ++ s ++ q) ∧
    (∀ (σ : Nat) (cd : CourseData) (c : String), cd.category = some c → c ≠ "" →
      ∃ p q, (generateManifest σ cd).xml = p ++ c ++ q) ∧
    (∀ (u t : String) (m : AMeta), ∃ p q, generateLtiAdvantageXml u t m = p ++ u ++ q) ∧
    (∀ (u t : String) (m : AMeta), t ≠ "" →
      ∃ p q, generateLtiAdvantageXml u t m = p ++ t ++ q) ∧
    (∀ (u t : String) (m : AMeta) (v : Nat), m.points = some v → v ≠ 0 →
      ∃ p q, generateLtiAdvantageXml u t m = p ++ Nat.repr v ++ q) ∧
    (∀ (u t : String) (m : AMeta) (v : Nat), m.timeLimit = some v → v ≠ 0 →
      ∃ p q, generateLtiAdvantageXml u t m = p ++ Nat.repr v ++ q) ∧
    (∀ (u t : String) (m : AMeta) (v : Nat), m.attempts = some v → v ≠ 0 →
      ∃ p q, generateLtiAdvantageXml u t m = p ++ Nat.repr v ++ q) ∧
    (∀ (u t : String) (m : AMeta) (v : Nat), m.passingScore = some v → v ≠ 0 →
      ∃ p q, generateLtiAdvantageXml u t m = p ++ Nat.repr v ++ q) := by
  refine ⟨?_, ?_, ?_, ?_, ?_, ?_, ?_, ?_, ?_, ?_, ?_, ?_⟩
  · intro σ cd
    refine ⟨"<?xml version=\"1.0\" encoding=\"UTF-8\"?>\n<manifest xmlns=\"http://www.imsglobal.org/xsd/imsccv1p1/imscp_v1p1\"\n    xmlns:lomimscc=\"http://ltsc.ieee.org/xsd/imsccv1p1/LOM/manifest\"\n    xmlns:xsi=\"http://www.w3.org/2001/XMLSchema-instance\" identifier=\"" ++
      "M_" ++ Nat.repr 100 ++
      "\" xsi:schemaLocation=\"http://www.imsglobal.org/xsd/imsccv1p1/imscp_v1p1 http://www.imsglobal.org/profile/cc/ccv1p1/ccv1p1_imscp_v1p2_v1p0.xsd http://ltsc.ieee.org/xsd/imsccv1p1/LOM/manifest http://www.imsglobal.org/profile/cc/ccv1p1/LOM/ccv1p1_lommanifest_v1p0.xsd http://ltsc.ieee.org/xsd/imsccv1p1/LOM/resource http://www.imsglobal.org/profile/cc/ccv1p1/LOM/ccv1p1_lomresource_v1p0.xsd\">\n    <metadata>\n        <schema>IMS Common Cartridge</schema>\n        <schemaversion>1.1.0</schemaversion>\n        <lomimscc:lom>\n            <lomimscc:general>\n                <lomimscc:title>\n                    <lomimscc:string language=\"en\">",
      "</lomimscc:string>\n                </lomimscc:title>\n                <lomimscc:language>en</lomimscc:language>\n                <lomimscc:description>\n                    <lomimscc:string language=\"en\">" ++
      jsOrOpt cd.description "" ++
      "</lomimscc:string>\n                </lomimscc:description>\n                <lomimscc:identifier>\n                    <lomimscc:catalog>category</lomimscc:catalog>\n                    <lomimscc:entry>" ++
      jsOrOpt cd.category "Hybrid Hosting" ++
      "</lomimscc:entry>\n                </lomimscc:identifier>\n            </lomimscc:general>\n        </lomimscc:lom>\n    </metadata>\n    <organizations>\n        <organization identifier=\"" ++
      "O_" ++ Nat.repr 101 ++
      "\" structure=\"rooted-hierarchy\">\n            <item identifier=\"root\">" ++
      (generateItems cd.modules 102).xml ++
      "\n            </item>\n        </organization>\n    </organizations>\n    <resources>" ++
      generateResourcesXml (generateItems cd.modules 102).resources ++
      "\n    </resources>\n</manifest>", ?_⟩
    have h100 : Nat.repr 100 = "100" := rfl
    have h101 : Nat.repr 101 = "101" := rfl
    simp [generateManifest, generateId, h100, h101, String.append_assoc, String.append_empty]
  · intro n c
    rcases n with ⟨title, lu, children, aurl, atitle, am⟩
    by_cases hl : truthyStr lu = true
    · obtain ⟨url, rfl⟩ : ∃ url, lu = some url := by
        cases lu with
        | none => simp [truthyStr] at hl
        | some u2 => exact ⟨u2, rfl⟩
      have hu : url ≠ "" := by simpa [truthyStr] using hl
      by_cases ha : truthyStr aurl = true
      · obtain ⟨aurl2, rfl⟩ : ∃ a, aurl = some a := by
          cases aurl with
          | none => simp [truthyStr] at ha
          | some a2 => exact ⟨a2, rfl⟩
        have ha2 : aurl2 ≠ "" := by simpa [truthyStr] using ha
        rw [generateItemsStep_leaf_assessment title url aurl2 children atitle am c hu ha2]
        refine ⟨"\n        <item identifier=\"" ++ itemIdOf c ++ "\" identifierref=\"" ++
          resourceIdOf c ++ "\">\n          <title>",
          "</title>\n        </item>" ++
            leafItemXml (c + 1) (assessmentTitleOf title atitle am), ?_⟩
        simp [leafItemXml, Node.title, String.append_assoc]
      · rw [generateItemsStep_leaf_noassessment title url children aurl atitle am c hu
          (by simpa using ha)]
        refine ⟨"\n        <item identifier=\"" ++ itemIdOf c ++ "\" identifierref=\"" ++
          resourceIdOf c ++ "\">\n          <title>", "</title>\n        </item>", ?_⟩
        simp [leafItemXml, Node.title, String.append_assoc]
    · have hnl : truthyStr lu = false := by simpa using hl
      cases children with
      | some cs =>
        rw [generateItemsStep_container_some title lu cs aurl atitle am c hnl]
        refine ⟨"\n        <item identifier=\"" ++ itemIdOf c ++ "\">\n          <title>",
          "</title>" ++ (generateItems cs (c + 1)).xml ++ "\n        </item>", ?_⟩
        simp [containerItemXml, Node.title, String.append_assoc]
      | none =>
        rw [generateItemsStep_container_none title lu aurl atitle am c hnl]
        refine ⟨"\n        <item identifier=\"" ++ itemIdOf c ++ "\">\n          <title>",
          "</title>\n        </item>", ?_⟩
        simp [containerItemXml, Node.title, String.append_assoc, String.append_empty]
  · intro u t
    refine ⟨"<?xml version=\"1.0\" encoding=\"UTF-8\"?>\n<cartridge_basiclti_link xmlns=\"http://www.imsglobal.org/xsd/imslticc_v1p0\"\n    xmlns:blti=\"http://www.imsglobal.org/xsd/imsbasiclti_v1p0\"\n    xmlns:lticm=\"http://www.imsglobal.org/xsd/imslticm_v1p0\"\n    xmlns:lticp=\"http://www.imsglobal.org/xsd/imslticp_v1p0\"\n    xmlns:xsi=\"http://www.w3.org/2001/XMLSchema-instance\"\n    xsi:schemaLocation=\"http://www.imsglobal.org/xsd/imslticc_v1p0 http://www.imsglobal.org/xsd/lti/ltiv1p0/imslticc_v1p0.xsd\n    http://www.imsglobal.org/xsd/imsbasiclti_v1p0 http://www.imsglobal.org/xsd/lti/ltiv1p0/imsbasiclti_v1p0.xsd\n    http://www.imsglobal.org/xsd/imslticm_v1p0 http://www.imsglobal.org/xsd/lti/ltiv1p0/imslticm_v1p0.xsd\n    http://www.imsglobal.org/xsd/imslticp_v1p0 http://www.imsglobal.org/xsd/lti/ltiv1p0/imslticp_v1p0.xsd\">\n    <blti:title>" ++
      jsOr t "External Tool" ++
      "</blti:title>\n    <blti:description>Basic LTI Launch</blti:description>\n    <blti:launch_url>",
      "</blti:launch_url>\n    <blti:secure_launch_url>" ++
      secureLaunchUrl u ++
      "</blti:secure_launch_url>\n    <blti:vendor>\n        <lticp:code>external_tool</lticp:code>\n        <lticp:name>External Tool Provider</lticp:name>\n    </blti:vendor>\n    <cartridge_bundle identifierref=\"BLTI001_Bundle\"/>\n    <cartridge_icon identifierref=\"BLTI001_Icon\"/>\n</cartridge_basiclti_link>", ?_⟩
    simp [generateBasicLtiXml, String.append_assoc]
  · intro u t ht
    refine ⟨"<?xml version=\"1.0\" encoding=\"UTF-8\"?>\n<cartridge_basiclti_link xmlns=\"http://www.imsglobal.org/xsd/imslticc_v1p0\"\n    xmlns:blti=\"http://www.imsglobal.org/xsd/imsbasiclti_v1p0\"\n    xmlns:lticm=\"http://www.imsglobal.org/xsd/imslticm_v1p0\"\n    xmlns:lticp=\"http://www.imsglobal.org/xsd/imslticp_v1p0\"\n    xmlns:xsi=\"http://www.w3.org/2001/XMLSchema-instance\"\n    xsi:schemaLocation=\"http://www.imsglobal.org/xsd/imslticc_v1p0 http://www.imsglobal.org/xsd/lti/ltiv1p0/imslticc_v1p0.xsd\n    http://www.imsglobal.org/xsd/imsbasiclti_v1p0 http://www.imsglobal.org/xsd/lti/ltiv1p0/imsbasiclti_v1p0.xsd\n    http://www.imsglobal.org/xsd/imslticm_v1p0 http://www.imsglobal.org/xsd/lti/ltiv1p0/imslticm_v1p0.xsd\n    http://www.imsglobal.org/xsd/imslticp_v1p0 http://www.imsglobal.org/xsd/lti/ltiv1p0/imslticp_v1p0.xsd\">\n    <blti:title>",
      "</blti:title>\n    <blti:description>Basic LTI Launch</blti:description>\n    <blti:launch_url>" ++
      u ++
      "</blti:launch_url>\n    <blti:secure_launch_url>" ++
      secureLaunchUrl u ++
      "</blti:secure_launch_url>\n    <blti:vendor>\n        <lticp:code>external_tool</lticp:code>\n        <lticp:name>External Tool Provider</lticp:name>\n    </blti:vendor>\n    <cartridge_bundle identifierref=\"BLTI001_Bundle\"/>\n    <cartridge_icon identifierref=\"BLTI001_Icon\"/>\n</cartridge_basiclti_link>", ?_⟩
    simp [generateBasicLtiXml, jsOr, ht, String.append_assoc]
  · intro σ cd s hdesc
    refine ⟨"<?xml version=\"1.0\" encoding=\"UTF-8\"?>\n<manifest xmlns=\"http://www.imsglobal.org/xsd/imsccv1p1/imscp_v1p1\"\n    xmlns:lomimscc=\"http://ltsc.ieee.org/xsd/imsccv1p1/LOM/manifest\"\n    xmlns:xsi=\"http://www.w3.org/2001/XMLSchema-instance\" identifier=\"" ++
      "M_" ++ Nat.repr 100 ++
      "\" xsi:schemaLocation=\"http://www.imsglobal.org/xsd/imsccv1p1/imscp_v1p1 http://www.imsglobal.org/profile/cc/ccv1p1/ccv1p1_imscp_v1p2_v1p0.xsd http://ltsc.ieee.org/xsd/imsccv1p1/LOM/manifest http://www.imsglobal.org/profile/cc/ccv1p1/LOM/ccv1p1_lommanifest_v1p0.xsd http://ltsc.ieee.org/xsd/imsccv1p1/LOM/resource http://www.imsglobal.org/profile/cc/ccv1p1/LOM/ccv1p1_lomresource_v1p0.xsd\">\n    <metadata>\n        <schema>IMS Common Cartridge</schema>\n        <schemaversion>1.1.0</schemaversion>\n        <lomimscc:lom>\n            <lomimscc:general>\n                <lomimscc:title>\n                    <lomimscc:string language=\"en\">" ++
      cd.title ++
      "</lomimscc:string>\n                </lomimscc:title>\n                <lomimscc:language>en</lomimscc:language>\n                <lomimscc:description>\n                    <lomimscc:string language=\"en\">",
      "</lomimscc:string>\n                </lomimscc:description>\n                <lomimscc:identifier>\n                    <lomimscc:catalog>category</lomimscc:catalog>\n                    <lomimscc:entry>" ++
      jsOrOpt cd.category "Hybrid Hosting" ++
      "</lomimscc:entry>\n                </lomimscc:identifier>\n            </lomimscc:general>\n        </lomimscc:lom>\n    </metadata>\n    <organizations>\n        <organization identifier=\"" ++
      "O_" ++ Nat.repr 101 ++
      "\" structure=\"rooted-hierarchy\">\n            <item identifier=\"root\">" ++
      (generateItems cd.modules 102).xml ++
      "\n            </item>\n        </organization>\n    </organizations>\n    <resources>" ++
      generateResourcesXml (generateItems cd.modules 102).resources ++
      "\n    </resources>\n</manifest>", ?_⟩
    have h100 : Nat.repr 100 = "100" := rfl
    have h101 : Nat.repr 101 = "101" := rfl
    simp [generateManifest, generateId, hdesc, jsOrOpt_some_empty, h100, h101,
      String.append_assoc, String.append_empty]
  · intro σ cd c hcat hc
    refine ⟨"<?xml version=\"1.0\" encoding=\"UTF-8\"?>\n<manifest xmlns=\"http://www.imsglobal.org/xsd/imsccv1p1/imscp_v1p1\"\n    xmlns:lomimscc=\"http://ltsc.ieee.org/xsd/imsccv1p1/LOM/manifest\"\n    xmlns:xsi=\"http://www.w3.org/2001/XMLSchema-instance\" identifier=\"" ++
      "M_" ++ Nat.repr 100 ++
      "\" xsi:schemaLocation=\"http://www.imsglobal.org/xsd/imsccv1p1/imscp_v1p1 http://www.imsglobal.org/profile/cc/ccv1p1/ccv1p1_imscp_v1p2_v1p0.xsd http://ltsc.ieee.org/xsd/imsccv1p1/LOM/manifest http://www.imsglobal.org/profile/cc/ccv1p1/LOM/ccv1p1_lommanifest_v1p0.xsd http://ltsc.ieee.org/xsd/imsccv1p1/LOM/resource http://www.imsglobal.org/profile/cc/ccv1p1/LOM/ccv1p1_lomresource_v1p0.xsd\">\n    <metadata>\n        <schema>IMS Common Cartridge</schema>\n        <schemaversion>1.1.0</schemaversion>\n        <lomimscc:lom>\n            <lomimscc:general>\n                <lomimscc:title>\n                    <lomimscc:string language=\"en\">" ++
      cd.title ++
      "</lomimscc:string>\n                </lomimscc:title>\n                <lomimscc:language>en</lomimscc:language>\n                <lomimscc:description>\n                    <lomimscc:string language=\"en\">" ++
      jsOrOpt cd.description "" ++
      "</lomimscc:string>\n                </lomimscc:description>\n                <lomimscc:identifier>\n                    <lomimscc:catalog>category</lomimscc:catalog>\n                    <lomimscc:entry>",
      "</lomimscc:entry>\n                </lomimscc:identifier>\n            </lomimscc:general>\n        </lomimscc:lom>\n    </metadata>\n    <organizations>\n        <organization identifier=\"" ++
      "O_" ++ Nat.repr 101 ++
      "\" structure=\"rooted-hierarchy\">\n            <item identifier=\"root\">" ++
      (generateItems cd.modules 102).xml ++
      "\n            </item>\n        </organization>\n    </organizations>\n    <resources>" ++
      generateResourcesXml (generateItems cd.modules 102).resources ++
      "\n    </resources>\n</manifest>", ?_⟩
    have h100 : Nat.repr 100 = "100" := rfl
    have h101 : Nat.repr 101 = "101" := rfl
    simp [generateManifest, generateId, hcat, jsOrOpt_some_of_ne c "Hybrid Hosting" hc,
      h100, h101, String.append_assoc, String.append_empty]
  · intro u t m
    rw [advantage_decomposition]
    refine ⟨"<?xml version=\"1.0\" encoding=\"UTF-8\"?>\n<cartridge_basiclti_link xmlns=\"http://www.imsglobal.org/xsd/imslticc_v1p0\"\n    xmlns:blti=\"http://www.imsglobal.org/xsd/imsbasiclti_v1p0\"\n    xmlns:lticm=\"http://www.imsglobal.org/xsd/imslticm_v1p0\"\n    xmlns:lticp=\"http://www.imsglobal.org/xsd/imslticp_v1p0\"\n    xmlns:xsi=\"http://www.w3.org/2001/XMLSchema-instance\"\n    xsi:schemaLocation=\"http://www.imsglobal.org/xsd/imslticc_v1p0 http://www.imsglobal.org/xsd/lti/ltiv1p0/imslticc_v1p0.xsd\n    http://www.imsglobal.org/xsd/imsbasiclti_v1p0 http://www.imsglobal.org/xsd/lti/ltiv1p0/imsbasiclti_v1p0.xsd\n    http://www.imsglobal.org/xsd/imslticm_v1p0 http://www.imsglobal.org/xsd/lti/ltiv1p0/imslticm_v1p0.xsd\n    http://www.imsglobal.org/xsd/imslticp_v1p0 http://www.imsglobal.org/xsd/lti/ltiv1p0/imslticp_v1p0.xsd\">\n    <blti:title>" ++
      jsOr t "Assessment" ++
      "</blti:title>\n    <blti:description>Assessment Launch via LTI Advantage</blti:description>\n    <blti:launch_url>",
      "</blti:launch_url>\n    <blti:secure_launch_url>" ++
      secureLaunchUrl u ++
      "</blti:secure_launch_url>\n    <blti:vendor>\n        <lticp:code>external_tool</lticp:code>\n        <lticp:name>External Tool Provider</lticp:name>\n    </blti:vendor>\n    <blti:extensions platform=\"canvas.instructure.com\">\n        <lticm:property name=\"tool_id\">lti_advantage_tool</lticm:property>\n        <lticm:property name=\"privacy_level\">public</lticm:property>\n        <lticm:property name=\"lti_1_3_enabled\">true</lticm:property>\n        <lticm:property name=\"public_jwk_url\">" ++
      jsReplaceLastSegment u "/jwks" ++
      "</lticm:property>\n        <lticm:property name=\"assignment_enabled\">true</lticm:property>\n        <lticm:property name=\"assignment_points_possible\">" ++
      Nat.repr (if truthyNum m.points then m.points.getD 0 else 10) ++ "</lticm:property>" ++
      (if truthyNum m.timeLimit then timeLimitProp (m.timeLimit.getD 0) else "") ++
      (if truthyNum m.attempts then attemptsProp (m.attempts.getD 0) else "") ++
      (if truthyBool m.proctored then proctoredProp else "") ++
      (if truthyNum m.passingScore then passingScoreProp (m.passingScore.getD 0) else "") ++
      advantageSettingsTail u, ?_⟩
    simp only [advantagePointsPrefix, String.append_assoc]
  · intro u t m ht
    rw [advantage_decomposition]
    have hjs : jsOr t "Assessment" = t := by simp [jsOr, ht]
    refine ⟨"<?xml version=\"1.0\" encoding=\"UTF-8\"?>\n<cartridge_basiclti_link xmlns=\"http://www.imsglobal.org/xsd/imslticc_v1p0\"\n    xmlns:blti=\"http://www.imsglobal.org/xsd/imsbasiclti_v1p0\"\n    xmlns:lticm=\"http://www.imsglobal.org/xsd/imslticm_v1p0\"\n    xmlns:lticp=\"http://www.imsglobal.org/xsd/imslticp_v1p0\"\n    xmlns:xsi=\"http://www.w3.org/2001/XMLSchema-instance\"\n    xsi:schemaLocation=\"http://www.imsglobal.org/xsd/imslticc_v1p0 http://www.imsglobal.org/xsd/lti/ltiv1p0/imslticc_v1p0.xsd\n    http://www.imsglobal.org/xsd/imsbasiclti_v1p0 http://www.imsglobal.org/xsd/lti/ltiv1p0/imsbasiclti_v1p0.xsd\n    http://www.imsglobal.org/xsd/imslticm_v1p0 http://www.imsglobal.org/xsd/lti/ltiv1p0/imslticm_v1p0.xsd\n    http://www.imsglobal.org/xsd/imslticp_v1p0 http://www.imsglobal.org/xsd/lti/ltiv1p0/imslticp_v1p0.xsd\">\n    <blti:title>",
      "</blti:title>\n    <blti:description>Assessment Launch via LTI Advantage</blti:description>\n    <blti:launch_url>" ++
      u ++
      "</blti:launch_url>\n    <blti:secure_launch_url>" ++
      secureLaunchUrl u ++
      "</blti:secure_launch_url>\n    <blti:vendor>\n        <lticp:code>external_tool</lticp:code>\n        <lticp:name>External Tool Provider</lticp:name>\n    </blti:vendor>\n    <blti:extensions platform=\"canvas.instructure.com\">\n        <lticm:property name=\"tool_id\">lti_advantage_tool</lticm:property>\n        <lticm:property name=\"privacy_level\">public</lticm:property>\n        <lticm:property name=\"lti_1_3_enabled\">true</lticm:property>\n        <lticm:property name=\"public_jwk_url\">" ++
      jsReplaceLastSegment u "/jwks" ++
      "</lticm:property>\n        <lticm:property name=\"assignment_enabled\">true</lticm:property>\n        <lticm:property name=\"assignment_points_possible\">" ++
      Nat.repr (if truthyNum m.points then m.points.getD 0 else 10) ++ "</lticm:property>" ++
      (if truthyNum m.timeLimit then timeLimitProp (m.timeLimit.getD 0) else "") ++
      (if truthyNum m.attempts then attemptsProp (m.attempts.getD 0) else "") ++
      (if truthyBool m.proctored then proctoredProp else "") ++
      (if truthyNum m.passingScore then passingScoreProp (m.passingScore.getD 0) else "") ++
      advantageSettingsTail u, ?_⟩
    simp only [advantagePointsPrefix, hjs, String.append_assoc]
  · intro u t m v hv hv0
    rw [advantage_decomposition]
    have htv : truthyNum m.points = true := by simp [truthyNum, hv, hv0]
    have hg : m.points.getD 0 = v := by simp [hv]
    refine ⟨advantagePointsPrefix u t,
      "</lticm:property>" ++
      (if truthyNum m.timeLimit then timeLimitProp (m.timeLimit.getD 0) else "") ++
      (if truthyNum m.attempts then attemptsProp (m.attempts.getD 0) else "") ++
      (if truthyBool m.proctored then proctoredProp else "") ++
      (if truthyNum m.passingScore then passingScoreProp (m.passingScore.getD 0) else "") ++
      advantageSettingsTail u, ?_⟩
    simp only [htv, hg, eq_self_iff_true, if_true, String.append_assoc]
  · intro u t m v hv hv0
    rw [advantage_decomposition]
    have htv : truthyNum m.timeLimit = true := by simp [truthyNum, hv, hv0]
    have hg : m.timeLimit.getD 0 = v := by simp [hv]
    refine ⟨advantagePointsPrefix u t ++
      Nat.repr (if truthyNum m.points then m.points.getD 0 else 10) ++ "</lticm:property>" ++
      "\n        <lticm:property name=\"time_limit\">",
      "</lticm:property>" ++
      (if truthyNum m.attempts then attemptsProp (m.attempts.getD 0) else "") ++
      (if truthyBool m.proctored then proctoredProp else "") ++
      (if truthyNum m.passingScore then passingScoreProp (m.passingScore.getD 0) else "") ++
      advantageSettingsTail u, ?_⟩
    simp only [htv, hg, eq_self_iff_true, if_true, timeLimitProp, String.append_assoc]
  · intro u t m v hv hv0
    rw [advantage_decomposition]
    have htv : truthyNum m.attempts = true := by simp [truthyNum, hv, hv0]
    have hg : m.attempts.getD 0 = v := by simp [hv]
    refine ⟨advantagePointsPrefix u t ++
      Nat.repr (if truthyNum m.points then m.points.getD 0 else 10) ++ "</lticm:property>" ++
      (if truthyNum m.timeLimit then timeLimitProp (m.timeLimit.getD 0) else "") ++
      "\n        <lticm:property name=\"allowed_attempts\">",
      "</lticm:property>" ++
      (if truthyBool m.proctored then proctoredProp else "") ++
      (if truthyNum m.passingScore then passingScoreProp (m.passingScore.getD 0) else "") ++
      advantageSettingsTail u, ?_⟩
    simp only [htv, hg, eq_self_iff_true, if_true, attemptsProp, String.append_assoc]
  · intro u t m v hv hv0
    rw [advantage_decomposition]
    have htv : truthyNum m.passingScore = true := by simp [truthyNum, hv, hv0]
    have hg : m.passingScore.getD 0 = v := by simp [hv]
    refine ⟨advantagePointsPrefix u t ++
      Nat.repr (if truthyNum m.points then m.points.getD 0 else 10) ++ "</lticm:property>" ++
      (if truthyNum m.timeLimit then timeLimitProp (m.timeLimit.getD 0) else "") ++
      (if truthyNum m.attempts then attemptsProp (m.attempts.getD 0) else "") ++
      (if truthyBool m.proctored then proctoredProp else "") ++
      "\n        <lticm:property name=\"passing_score\">",
      "</lticm:property>" ++ advantageSettingsTail u, ?_⟩
    simp only [htv, hg, eq_self_iff_true, if_true, passingScoreProp, String.append_assoc]

/-- A sample course exercising the description and category sites. -/
def sampleCourse : CourseData where
  title := "C"
  description := some "D<&>"
  category := some "Cat"
  modules := []

/-- A sample metadata record with every optional value present and truthy. -/
def sampleMeta : AMeta where
  points := some 15
  timeLimit := some 30
  attempts := some 2
  passingScore := some 70

/-- Witness for C10: concrete inputs (with `<`, `&`, `>` in them) pass through
the basic descriptor, the manifest, and the Advantage descriptor verbatim. -/
theorem C10_witness :
    (∃ p q, generateBasicLtiXml "https://e" "Ti" = p ++ "Ti" ++ q) ∧
    (∃ p q, (generateManifest 0 sampleCourse).xml = p ++ "D<&>" ++ q) ∧
    (∃ p q, (generateManifest 0 sampleCourse).xml = p ++ "Cat" ++ q) ∧
    (∃ p q, generateLtiAdvantageXml "http://x/a" "T<&>" sampleMeta = p ++ "T<&>" ++ q) ∧
    (∃ p q, generateLtiAdvantageXml "http://x/a" "T<&>" sampleMeta = p ++ Nat.repr 15 ++ q) ∧
    (∃ p q, generateLtiAdvantageXml "http://x/a" "T<&>" sampleMeta = p ++ Nat.repr 30 ++ q) ∧
    (∃ p q, generateLtiAdvantageXml "http://x/a" "T<&>" sampleMeta = p ++ Nat.repr 2 ++ q) ∧
    (∃ p q, generateLtiAdvantageXml "http://x/a" "T<&>" sampleMeta = p ++ Nat.repr 70 ++ q) :=
  ⟨C10_no_escaping.2.2.2.1 "https://e" "Ti" (by decide),
    C10_no_escaping.2.2.2.2.1 0 sampleCourse "D<&>" rfl,
    C10_no_escaping.2.2.2.2.2.1 0 sampleCourse "Cat" rfl (by decide),
    C10_no_escaping.2.2.2.2.2.2.2.1 "http://x/a" "T<&>" sampleMeta (by decide),
    C10_no_escaping.2.2.2.2.2.2.2.2.1 "http://x/a" "T<&>" sampleMeta 15 rfl (by decide),
    C10_no_escaping.2.2.2.2.2.2.2.2.2.1 "http://x/a" "T<&>" sampleMeta 30 rfl (by decide),
    C10_no_escaping.2.2.2.2.2.2.2.2.2.2.1 "http://x/a" "T<&>" sampleMeta 2 rfl (by decide),
    C10_no_escaping.2.2.2.2.2.2.2.2.2.2.2 "http://x/a" "T<&>" sampleMeta 70 rfl (by decide)⟩

end CC
